import Mathlib

/-!
Verification of the `SettingsManager` orchestration core of libdisplaydevice
(`src/windows/settings_manager_general.cpp`).

The C++ class delegates every device read/write to a `WinDisplayDeviceInterface`
collaborator.  We embed the collaborator as a record of response functions: each
stateful read and each write-success outcome is a function of the trace of
collaborator calls already performed (this models an arbitrary, possibly
stateful, behaviour of the collaborator).  The orchestration methods are then
translated line by line into pure Lean functions that return their result
together with the full trace of collaborator calls (`DdEvent` list), so that
claims about "which device calls happen, in which order, on which path" become
statements about the returned trace.
-/

namespace DisplayDevice

/-- Opaque display device identifier (`std::string`); `""` models the empty id. -/
abbrev DeviceId := String

/-- `ActiveTopology`: grouping of device ids.  The orchestrator never inspects
it except through the collaborator's validity/equality predicates and
`flattenTopology`, so any concrete carrier works; we use grouped id lists. -/
abbrev Topology := List (List String)

/-- Tri-state HDR status of one device. -/
inductive HdrState where
  | enabled
  | disabled
  | unknown
deriving DecidableEq, Repr

/-- A display mode (resolution and refresh rate). -/
structure DisplayMode where
  width : Nat
  height : Nat
  refreshRate : Nat
deriving DecidableEq, Repr

/-- `DeviceDisplayModeMap` (`std::map<std::string, DisplayMode>`) modelled as an
association list; the orchestrator only compares maps for equality and tests
emptiness. -/
abbrev ModeMap := List (DeviceId × DisplayMode)

/-- `HdrStateMap` modelled as an association list. -/
abbrev HdrStateMap := List (DeviceId × HdrState)

/-- Return value of `exportCurrentSettings`. -/
structure DisplaySettingsSnapshot where
  topology : Topology
  modes : ModeMap
  hdrStates : HdrStateMap
  primaryDevice : DeviceId
deriving DecidableEq, Repr

/-- `SingleDisplayConfigState::Initial`.  The C++ `std::set<std::string>` of
primary-capable devices is modelled as a list in encounter order; claims about
it are stated via membership, which is insensitive to ordering. -/
structure ConfigInitial where
  topology : Topology
  primaryDevices : List DeviceId
deriving DecidableEq, Repr

/-- `SingleDisplayConfigState::Modified` (`m_topology`, `m_original_modes`,
`m_original_hdr_states`, `m_original_primary_device`). -/
structure ConfigModified where
  topology : Topology
  modes : ModeMap
  hdrStates : HdrStateMap
  primaryDevice : DeviceId
deriving DecidableEq, Repr

/-- `SingleDisplayConfigState`: the restorable unit. -/
structure SingleDisplayConfigState where
  initial : ConfigInitial
  modified : ConfigModified
deriving DecidableEq, Repr

/-- `SettingsManager::RevertResult`. -/
inductive RevertResult where
  | ok
  | apiTemporarilyUnavailable
  | topologyIsInvalid
  | switchingTopologyFailed
  | revertingHdrStatesFailed
  | revertingDisplayModesFailed
  | revertingPrimaryDeviceFailed
  | persistenceSaveFailed
deriving DecidableEq, Repr

/-- One collaborator call, recorded together with its result.  `query…` events
are reads, `write…` events are device writes recording whether the write
succeeded, `strictModeFlag b` records `WinDisplayDevice::setForceStrictModes(b)`,
and `blankHdr` records the `win_utils::blankHdrStates` cleanup call. -/
inductive DdEvent where
  | queryApiAccess (ok : Bool)
  | queryTopology (t : Topology)
  | queryHdrStates (ids : List DeviceId) (res : HdrStateMap)
  | queryModes (ids : List DeviceId) (res : ModeMap)
  | queryIsPrimary (id : DeviceId) (res : Bool)
  | queryPrimary (t : Topology) (res : DeviceId)
  | writeTopology (t : Topology) (ok : Bool)
  | writeHdrStates (s : HdrStateMap) (ok : Bool)
  | writeModes (m : ModeMap) (ok : Bool)
  | writePrimary (d : DeviceId) (ok : Bool)
  | strictModeFlag (b : Bool)
  | blankHdr
deriving DecidableEq, Repr

/-- The device-control collaborator (`WinDisplayDeviceInterface` together with
the `win_utils` helpers that only forward to it).  Stateful reads and write
outcomes receive the trace of calls performed so far, which lets a single
record value describe an arbitrary deterministic collaborator behaviour.
`isTopologyValid` / `isTopologyTheSame` / `flattenTopology` are pure
predicates over topologies, as in the spec's data model. -/
structure WinDisplayDeviceApi where
  isApiAccessAvailable : List DdEvent → Bool
  getCurrentTopology : List DdEvent → Topology
  isTopologyValid : Topology → Bool
  isTopologyTheSame : Topology → Topology → Bool
  flattenTopology : Topology → List DeviceId
  getCurrentDisplayModes : List DdEvent → List DeviceId → ModeMap
  getCurrentHdrStates : List DdEvent → List DeviceId → HdrStateMap
  isPrimaryDevice : List DdEvent → DeviceId → Bool
  getPrimaryDevice : List DdEvent → Topology → DeviceId
  setTopologySucceeds : List DdEvent → Topology → Bool
  setHdrStatesSucceeds : List DdEvent → HdrStateMap → Bool
  setDisplayModesSucceeds : List DdEvent → ModeMap → Bool
  setAsPrimarySucceeds : List DdEvent → DeviceId → Bool

/-- The `hdr_blank_always_executed_guard` scope-exit: on every exit from the
step sequence, run `blankHdrStates` exactly when `system_settings_touched`. -/
def finishRestore (touched : Bool) (r : RevertResult) (tr : List DdEvent) :
    RevertResult × List DdEvent :=
  if touched then (r, tr ++ [DdEvent.blankHdr]) else (r, tr)

/-- Step 5 of `restoreFromProfile`: switch to the initial topology.
`initial.topology` is validity-checked, then compared (via the collaborator
predicate) against `modified.topology` — not against any live read. -/
def restoreStepFive (api : WinDisplayDeviceApi) (snap : SingleDisplayConfigState)
    (touched : Bool) (tr : List DdEvent) : RevertResult × List DdEvent :=
  if !(api.isTopologyValid snap.initial.topology) then
    finishRestore touched RevertResult.topologyIsInvalid tr
  else if api.isTopologyTheSame snap.modified.topology snap.initial.topology then
    finishRestore touched RevertResult.ok tr
  else if api.setTopologySucceeds tr snap.initial.topology then
    finishRestore true RevertResult.ok (tr ++ [DdEvent.writeTopology snap.initial.topology true])
  else
    finishRestore true RevertResult.switchingTopologyFailed
      (tr ++ [DdEvent.writeTopology snap.initial.topology false])

/-- Step 4 of `restoreFromProfile`: restore the primary device if provided. -/
def restoreStepFour (api : WinDisplayDeviceApi) (snap : SingleDisplayConfigState)
    (touched : Bool) (tr : List DdEvent) : RevertResult × List DdEvent :=
  if snap.modified.primaryDevice = "" then restoreStepFive api snap touched tr
  else
    let currentPrimary := api.getPrimaryDevice tr snap.modified.topology
    let tr1 := tr ++ [DdEvent.queryPrimary snap.modified.topology currentPrimary]
    if currentPrimary = snap.modified.primaryDevice then restoreStepFive api snap touched tr1
    else if api.setAsPrimarySucceeds tr1 snap.modified.primaryDevice then
      restoreStepFive api snap true (tr1 ++ [DdEvent.writePrimary snap.modified.primaryDevice true])
    else
      finishRestore true RevertResult.revertingPrimaryDeviceFailed
        (tr1 ++ [DdEvent.writePrimary snap.modified.primaryDevice false])

/-- Step 3 of `restoreFromProfile`: restore display modes if provided, under
the strict-mode flag, whose reset scope-exit fires on both the success and the
failure path before anything later runs. -/
def restoreStepThree (api : WinDisplayDeviceApi) (snap : SingleDisplayConfigState)
    (touched : Bool) (tr : List DdEvent) : RevertResult × List DdEvent :=
  if snap.modified.modes = [] then restoreStepFour api snap touched tr
  else
    let currentModes := api.getCurrentDisplayModes tr (api.flattenTopology snap.modified.topology)
    let tr1 := tr ++ [DdEvent.queryModes (api.flattenTopology snap.modified.topology) currentModes]
    if currentModes = snap.modified.modes then restoreStepFour api snap touched tr1
    else
      let tr2 := tr1 ++ [DdEvent.strictModeFlag true]
      if api.setDisplayModesSucceeds tr2 snap.modified.modes then
        restoreStepFour api snap true
          (tr2 ++ [DdEvent.writeModes snap.modified.modes true, DdEvent.strictModeFlag false])
      else
        finishRestore true RevertResult.revertingDisplayModesFailed
          (tr2 ++ [DdEvent.writeModes snap.modified.modes false, DdEvent.strictModeFlag false])

/-- Step 2 of `restoreFromProfile`: restore HDR states if provided. -/
def restoreStepTwo (api : WinDisplayDeviceApi) (snap : SingleDisplayConfigState)
    (touched : Bool) (tr : List DdEvent) : RevertResult × List DdEvent :=
  if snap.modified.hdrStates = [] then restoreStepThree api snap touched tr
  else
    let currentStates := api.getCurrentHdrStates tr (api.flattenTopology snap.modified.topology)
    let tr1 := tr ++ [DdEvent.queryHdrStates (api.flattenTopology snap.modified.topology) currentStates]
    if currentStates = snap.modified.hdrStates then restoreStepThree api snap touched tr1
    else if api.setHdrStatesSucceeds tr1 snap.modified.hdrStates then
      restoreStepThree api snap true (tr1 ++ [DdEvent.writeHdrStates snap.modified.hdrStates true])
    else
      finishRestore true RevertResult.revertingHdrStatesFailed
        (tr1 ++ [DdEvent.writeHdrStates snap.modified.hdrStates false])

/-- Step 1 of `restoreFromProfile`: validate and switch to the modified
topology.  The validity failure here happens with `touched` still false, so no
HDR blanking is performed on that exit. -/
def restoreStepOne (api : WinDisplayDeviceApi) (snap : SingleDisplayConfigState)
    (currentTopology : Topology) (tr : List DdEvent) : RevertResult × List DdEvent :=
  if !(api.isTopologyValid snap.modified.topology) then
    finishRestore false RevertResult.topologyIsInvalid tr
  else if api.isTopologyTheSame currentTopology snap.modified.topology then
    restoreStepTwo api snap false tr
  else if api.setTopologySucceeds tr snap.modified.topology then
    restoreStepTwo api snap true (tr ++ [DdEvent.writeTopology snap.modified.topology true])
  else
    finishRestore true RevertResult.switchingTopologyFailed
      (tr ++ [DdEvent.writeTopology snap.modified.topology false])

/-- `SettingsManager::restoreFromProfile`.  `decodeConfig` is the snapshot
codec's `fromJson` (`none` = parse failure); the preconditions run before the
decode, and the decode runs before the cleanup guard is registered.  The byte
buffer is opaque to the orchestrator (it is only handed to the codec), so it
is a type parameter `β`. -/
def restoreFromProfile {β : Type} (api : WinDisplayDeviceApi)
    (decodeConfig : β → Option SingleDisplayConfigState) (data : β) :
    RevertResult × List DdEvent :=
  let accessOk := api.isApiAccessAvailable []
  let tr1 := [DdEvent.queryApiAccess accessOk]
  if !accessOk then (RevertResult.apiTemporarilyUnavailable, tr1)
  else
    let currentTopology := api.getCurrentTopology tr1
    let tr2 := tr1 ++ [DdEvent.queryTopology currentTopology]
    if !(api.isTopologyValid currentTopology) then (RevertResult.topologyIsInvalid, tr2)
    else
      match decodeConfig data with
      | none => (RevertResult.persistenceSaveFailed, tr2)
      | some snapshot => restoreStepOne api snapshot currentTopology tr2

/-- `SettingsManager::exportCurrentSettings` (the read-only snapshot): empty
modes is a hard failure, empty HDR states are tolerated, nothing is written. -/
def exportCurrentSettings (api : WinDisplayDeviceApi) :
    Option DisplaySettingsSnapshot × List DdEvent :=
  let accessOk := api.isApiAccessAvailable []
  let tr1 := [DdEvent.queryApiAccess accessOk]
  if !accessOk then (none, tr1)
  else
    let topology := api.getCurrentTopology tr1
    let tr2 := tr1 ++ [DdEvent.queryTopology topology]
    if !(api.isTopologyValid topology) then (none, tr2)
    else
      let devicesFlat := api.flattenTopology topology
      let modes := api.getCurrentDisplayModes tr2 devicesFlat
      let tr3 := tr2 ++ [DdEvent.queryModes devicesFlat modes]
      if modes = [] then (none, tr3)
      else
        let hdrStates := api.getCurrentHdrStates tr3 devicesFlat
        let tr4 := tr3 ++ [DdEvent.queryHdrStates devicesFlat hdrStates]
        let primaryDevice := api.getPrimaryDevice tr4 topology
        let tr5 := tr4 ++ [DdEvent.queryPrimary topology primaryDevice]
        (some ⟨topology, modes, hdrStates, primaryDevice⟩, tr5)

/-- The `primary_devices` collection loop of `exportRestoreProfile`: one
`isPrimary` collaborator call per flattened device id, in order.  The C++
`std::set` is modelled as the encounter-ordered list of ids answered `true`. -/
def collectPrimaryDevices (api : WinDisplayDeviceApi) :
    List DeviceId → List DdEvent → List DeviceId × List DdEvent
  | [], tr => ([], tr)
  | id :: rest, tr =>
    let res := api.isPrimaryDevice tr id
    let next := collectPrimaryDevices api rest (tr ++ [DdEvent.queryIsPrimary id res])
    (if res then id :: next.1 else next.1, next.2)

/-- `SettingsManager::exportRestoreProfile`: same preconditions as
`exportCurrentSettings`, but empty HDR states are also a hard failure; builds
the two-part `SingleDisplayConfigState` from one topology read and serializes
it with the codec's `encodeConfig` (`toJson`). -/
def exportRestoreProfile {β : Type} (api : WinDisplayDeviceApi)
    (encodeConfig : SingleDisplayConfigState → β) :
    Option β × List DdEvent :=
  let accessOk := api.isApiAccessAvailable []
  let tr1 := [DdEvent.queryApiAccess accessOk]
  if !accessOk then (none, tr1)
  else
    let topology := api.getCurrentTopology tr1
    let tr2 := tr1 ++ [DdEvent.queryTopology topology]
    if !(api.isTopologyValid topology) then (none, tr2)
    else
      let deviceIds := api.flattenTopology topology
      let modes := api.getCurrentDisplayModes tr2 deviceIds
      let tr3 := tr2 ++ [DdEvent.queryModes deviceIds modes]
      if modes = [] then (none, tr3)
      else
        let hdrStates := api.getCurrentHdrStates tr3 deviceIds
        let tr4 := tr3 ++ [DdEvent.queryHdrStates deviceIds hdrStates]
        if hdrStates = [] then (none, tr4)
        else
          let collected := collectPrimaryDevices api deviceIds tr4
          let originalPrimary := api.getPrimaryDevice collected.2 topology
          let tr5 := collected.2 ++ [DdEvent.queryPrimary topology originalPrimary]
          let snapshot : SingleDisplayConfigState :=
            ⟨⟨topology, collected.1⟩, ⟨topology, modes, hdrStates, originalPrimary⟩⟩
          (some (encodeConfig snapshot), tr5)

/-- Observable collaborator calls of `resetPersistence`. -/
inductive ResetEvent where
  | persistWriteEmpty (ok : Bool)
  | audioRelease
deriving DecidableEq, Repr

/-- State relevant to `resetPersistence`: the persistence collaborator's cached
record, whether persisting the empty record would succeed, and whether the
audio-capture handle is currently captured. -/
structure ResetState where
  persisted : Option SingleDisplayConfigState
  persistClearSucceeds : Bool
  audioCaptured : Bool
deriving DecidableEq, Repr

/-- `SettingsManager::resetPersistence`: trivial success when nothing is
persisted; otherwise persist the empty record (failure leaves everything
untouched), then release the audio handle exactly when it is captured. -/
def resetPersistence (s : ResetState) : Bool × ResetState × List ResetEvent :=
  match s.persisted with
  | none => (true, s, [])
  | some _ =>
    if !s.persistClearSucceeds then (false, s, [ResetEvent.persistWriteEmpty false])
    else
      let cleared : ResetState := { s with persisted := none }
      if s.audioCaptured then
        (true, { cleared with audioCaptured := false },
          [ResetEvent.persistWriteEmpty true, ResetEvent.audioRelease])
      else
        (true, cleared, [ResetEvent.persistWriteEmpty true])

/-- Event classifier: device writes. -/
def DdEvent.isWrite : DdEvent → Bool
  | .writeTopology _ _ => true
  | .writeHdrStates _ _ => true
  | .writeModes _ _ => true
  | .writePrimary _ _ => true
  | _ => false

/-- Event classifier: device writes that reported failure. -/
def DdEvent.isFailedWrite : DdEvent → Bool
  | .writeTopology _ false => true
  | .writeHdrStates _ false => true
  | .writeModes _ false => true
  | .writePrimary _ false => true
  | _ => false

/-- Event classifier: any collaborator activity belonging to step 3 (modes). -/
def DdEvent.isModesStep : DdEvent → Bool
  | .queryModes _ _ => true
  | .writeModes _ _ => true
  | .strictModeFlag _ => true
  | _ => false

/-- Event classifier: any collaborator activity belonging to step 4 (primary). -/
def DdEvent.isPrimaryStep : DdEvent → Bool
  | .queryIsPrimary _ _ => true
  | .queryPrimary _ _ => true
  | .writePrimary _ _ => true
  | _ => false

/-- Event classifier: topology writes. -/
def DdEvent.isTopologyWrite : DdEvent → Bool
  | .writeTopology _ _ => true
  | _ => false

/-- Event classifier: strict-mode flag toggles. -/
def DdEvent.isStrictToggle : DdEvent → Bool
  | .strictModeFlag _ => true
  | _ => false

/-- Sample topology with one single-device group. -/
def topoA : Topology := [["DEV1"]]

/-- Sample topology differing from `topoA`. -/
def topoB : Topology := [["DEV2"]]

/-- Sample mode map for `topoA`. -/
def modesA : ModeMap := [("DEV1", ⟨1920, 1080, 60⟩)]

/-- Sample HDR state map for `topoA`. -/
def hdrA : HdrStateMap := [("DEV1", HdrState.enabled)]

/-- Sample profile whose two topologies agree. -/
def snapA : SingleDisplayConfigState := ⟨⟨topoA, ["DEV1"]⟩, ⟨topoA, modesA, hdrA, "DEV1"⟩⟩

/-- Sample profile whose initial topology is empty (invalid under `mkApi`). -/
def snapBadInit : SingleDisplayConfigState := ⟨⟨[], ["DEV1"]⟩, ⟨topoA, modesA, hdrA, "DEV1"⟩⟩

/-- Sample profile whose modified topology is empty (invalid under `mkApi`). -/
def snapBadModified : SingleDisplayConfigState :=
  ⟨⟨topoA, ["DEV1"]⟩, ⟨[], modesA, hdrA, "DEV1"⟩⟩

/-- Configurable concrete collaborator for evaluating the orchestration
functions on closed inputs: a topology is valid iff non-empty, topologies are
compared by structural equality, reads are constant, and every write reports
`writesOk`. -/
def mkApi (acc : Bool) (ct : Topology) (modes : ModeMap) (hdr : HdrStateMap)
    (prim : DeviceId) (writesOk : Bool) : WinDisplayDeviceApi where
  isApiAccessAvailable _ := acc
  getCurrentTopology _ := ct
  isTopologyValid t := decide (t ≠ [])
  isTopologyTheSame a b := decide (a = b)
  flattenTopology t := t.flatten
  getCurrentDisplayModes _ _ := modes
  getCurrentHdrStates _ _ := hdr
  isPrimaryDevice _ id := decide (id = prim)
  getPrimaryDevice _ _ := prim
  setTopologySucceeds _ _ := writesOk
  setHdrStatesSucceeds _ _ := writesOk
  setDisplayModesSucceeds _ _ := writesOk
  setAsPrimarySucceeds _ _ := writesOk

/-- Identity snapshot codec decoder over already-decoded buffers, used to
instantiate the opaque-buffer parameter on closed inputs. -/
def idDecode : Option SingleDisplayConfigState → Option SingleDisplayConfigState := fun x => x

/-- Strict-flag discipline of an event list: either the strict flag is never
toggled, or it is toggled exactly twice — enabled immediately before a single
display-mode write and disabled immediately after it. -/
def StrictShape (l : List DdEvent) : Prop :=
  (∀ e ∈ l, e.isStrictToggle = false)
  ∨ ∃ pre m b post,
      l = pre ++ [DdEvent.strictModeFlag true, DdEvent.writeModes m b,
        DdEvent.strictModeFlag false] ++ post
      ∧ (∀ e ∈ pre, e.isStrictToggle = false) ∧ (∀ e ∈ post, e.isStrictToggle = false)

/-- Claim C9: `resetPersistence` succeeds trivially (no persistence write, no
audio release) when nothing is persisted; when a record is persisted and
clearing fails it returns false with the audio handle untouched; when the
clear succeeds it returns true and releases the audio handle exactly when it
is captured; and whenever a call returns true, an immediately following call
performs no collaborator calls and returns true again. -/
theorem resetPersistence_c9 (s : ResetState) :
    (s.persisted = none → resetPersistence s = (true, s, []))
    ∧ (∀ x, s.persisted = some x → s.persistClearSucceeds = false →
        resetPersistence s = (false, s, [ResetEvent.persistWriteEmpty false]))
    ∧ (∀ x, s.persisted = some x → s.persistClearSucceeds = true →
        (resetPersistence s).1 = true
        ∧ (ResetEvent.audioRelease ∈ (resetPersistence s).2.2 ↔ s.audioCaptured = true))
    ∧ ((resetPersistence s).1 = true →
        resetPersistence (resetPersistence s).2.1 = (true, (resetPersistence s).2.1, [])) := by
  obtain ⟨p, c, a⟩ := s
  cases p <;> cases c <;> cases a <;> simp [resetPersistence]

/-- Witness for C9 at a concrete state with nothing persisted. -/
theorem resetPersistence_c9_witness :
    resetPersistence ⟨none, true, true⟩ = (true, ⟨none, true, true⟩, []) :=
  (resetPersistence_c9 ⟨none, true, true⟩).1 rfl

/-- Claim C7: `exportCurrentSettings` is all-or-nothing — it returns `none`
exactly when the device API is inaccessible, the current topology is invalid,
or the modes read over the flattened topology comes back empty; otherwise it
returns a snapshot holding exactly the just-read topology, modes, HDR states
and primary device; and in every case it performs no device write, no strict
flag toggle and no HDR blanking. -/
theorem exportCurrentSettings_c7 (api : WinDisplayDeviceApi) :
    let topo := api.getCurrentTopology [DdEvent.queryApiAccess true]
    let tr2 := [DdEvent.queryApiAccess true, DdEvent.queryTopology topo]
    let ids := api.flattenTopology topo
    let modes := api.getCurrentDisplayModes tr2 ids
    let tr3 := tr2 ++ [DdEvent.queryModes ids modes]
    let hdr := api.getCurrentHdrStates tr3 ids
    let tr4 := tr3 ++ [DdEvent.queryHdrStates ids hdr]
    (∀ e ∈ (exportCurrentSettings api).2,
        e.isWrite = false ∧ e ≠ DdEvent.blankHdr ∧ e.isStrictToggle = false)
    ∧ ((exportCurrentSettings api).1 = none ↔
        (api.isApiAccessAvailable [] = false ∨ api.isTopologyValid topo = false ∨ modes = []))
    ∧ (∀ s, (exportCurrentSettings api).1 = some s →
        s = ⟨topo, modes, hdr, api.getPrimaryDevice tr4 topo⟩) := by
  intro topo tr2 ids modes tr3 hdr tr4
  cases hA : api.isApiAccessAvailable [] with
  | false =>
    simp [exportCurrentSettings, hA, DdEvent.isWrite, DdEvent.isStrictToggle]
  | true =>
    simp only [exportCurrentSettings, hA]
    split_ifs with h1 h2 <;>
      simp_all [topo, tr2, ids, modes, tr3, hdr, tr4,
        DdEvent.isWrite, DdEvent.isStrictToggle]

/-- Witness for C7 at a concrete collaborator (the export succeeds and no
write is issued). -/
theorem exportCurrentSettings_c7_witness :
    (∀ e ∈ (exportCurrentSettings (mkApi true topoA modesA hdrA "DEV1" true)).2,
        e.isWrite = false ∧ e ≠ DdEvent.blankHdr ∧ e.isStrictToggle = false)
    ∧ ((exportCurrentSettings (mkApi true topoA modesA hdrA "DEV1" true)).1 = none ↔ False) := by
  have h := exportCurrentSettings_c7 (mkApi true topoA modesA hdrA "DEV1" true)
  refine ⟨h.1, Iff.trans h.2.1 (by decide)⟩

/-- Claim C6: the two export operations handle HDR asymmetrically — when the
HDR read over the flattened topology comes back empty (all other
preconditions passing), `exportCurrentSettings` still returns a snapshot with
an empty `HdrStateMap` while `exportRestoreProfile` returns no buffer; and
each of the shared preconditions (API accessibility, topology validity,
non-empty modes) failing makes both operations return nothing alike. -/
theorem export_c6 {β : Type} (api : WinDisplayDeviceApi)
    (encodeConfig : SingleDisplayConfigState → β) :
    let topo := api.getCurrentTopology [DdEvent.queryApiAccess true]
    let tr2 := [DdEvent.queryApiAccess true, DdEvent.queryTopology topo]
    let ids := api.flattenTopology topo
    let modes := api.getCurrentDisplayModes tr2 ids
    let tr3 := tr2 ++ [DdEvent.queryModes ids modes]
    let hdr := api.getCurrentHdrStates tr3 ids
    let tr4 := tr3 ++ [DdEvent.queryHdrStates ids hdr]
    (api.isApiAccessAvailable [] = true → api.isTopologyValid topo = true →
     modes ≠ [] → hdr = [] →
       (exportCurrentSettings api).1 = some ⟨topo, modes, [], api.getPrimaryDevice tr4 topo⟩
       ∧ (exportRestoreProfile api encodeConfig).1 = none)
    ∧ (api.isApiAccessAvailable [] = false →
       (exportCurrentSettings api).1 = none ∧ (exportRestoreProfile api encodeConfig).1 = none)
    ∧ (api.isApiAccessAvailable [] = true → api.isTopologyValid topo = false →
       (exportCurrentSettings api).1 = none ∧ (exportRestoreProfile api encodeConfig).1 = none)
    ∧ (api.isApiAccessAvailable [] = true → api.isTopologyValid topo = true → modes = [] →
       (exportCurrentSettings api).1 = none ∧ (exportRestoreProfile api encodeConfig).1 = none) := by
  intro topo tr2 ids modes tr3 hdr tr4
  refine ⟨fun hA hV hM hH => ?_, fun hA => ?_, fun hA hV => ?_, fun hA hV hM => ?_⟩ <;>
    simp_all [exportCurrentSettings, exportRestoreProfile, topo, tr2, ids, modes, tr3, hdr, tr4]

/-- Witness for C6 at a concrete collaborator whose HDR read is empty. -/
theorem export_c6_witness :
    (exportCurrentSettings (mkApi true topoA modesA [] "DEV1" true)).1
      = some ⟨topoA, modesA, [], "DEV1"⟩
    ∧ (exportRestoreProfile (mkApi true topoA modesA [] "DEV1" true) (fun s => s)).1 = none := by
  have h := (export_c6 (mkApi true topoA modesA [] "DEV1" true) (fun s => s)).1
    (by decide) (by decide) (by decide) (by decide)
  exact ⟨by rw [h.1]; decide, h.2⟩

/-- Claim C3: an undecodable buffer makes `restoreFromProfile` return
`PersistenceSaveFailed` with no device write at all (the trace holds only the
two precondition reads); and the decode is only reached after the
API-accessibility check and the live-topology validity check, which fail with
`ApiTemporarilyUnavailable` resp. `TopologyIsInvalid`, also without any
mutation and with an outcome independent of the decoder. -/
theorem restore_c3 {β : Type} (api : WinDisplayDeviceApi)
    (d1 d2 : β → Option SingleDisplayConfigState) (data : β) :
    let ct := api.getCurrentTopology [DdEvent.queryApiAccess true]
    (api.isApiAccessAvailable [] = true → api.isTopologyValid ct = true → d1 data = none →
       restoreFromProfile api d1 data
         = (RevertResult.persistenceSaveFailed,
            [DdEvent.queryApiAccess true, DdEvent.queryTopology ct]))
    ∧ (api.isApiAccessAvailable [] = false →
       restoreFromProfile api d1 data
           = (RevertResult.apiTemporarilyUnavailable, [DdEvent.queryApiAccess false])
         ∧ restoreFromProfile api d1 data = restoreFromProfile api d2 data)
    ∧ (api.isApiAccessAvailable [] = true → api.isTopologyValid ct = false →
       restoreFromProfile api d1 data
           = (RevertResult.topologyIsInvalid,
              [DdEvent.queryApiAccess true, DdEvent.queryTopology ct])
         ∧ restoreFromProfile api d1 data = restoreFromProfile api d2 data) := by
  intro ct
  refine ⟨fun hA hV hD => ?_, fun hA => ?_, fun hA hV => ?_⟩ <;>
    simp_all [restoreFromProfile, ct]

/-- Witness for C3 at a concrete collaborator and an undecodable buffer. -/
theorem restore_c3_witness :
    restoreFromProfile (mkApi true topoA modesA hdrA "DEV1" true) idDecode none
      = (RevertResult.persistenceSaveFailed,
         [DdEvent.queryApiAccess true, DdEvent.queryTopology topoA]) := by
  have h := (restore_c3 (mkApi true topoA modesA hdrA "DEV1" true) idDecode idDecode none).1
    (by decide) (by decide) rfl
  exact h

/-- Claim C2: `restoreFromProfile` is idempotent with respect to device
writes — for a decoded profile that already matches the live system (the live
topology is `modified.topology`, live HDR states, modes and primary equal the
`modified` targets throughout the call, and `initial.topology` equals
`modified.topology`), the call performs zero device writes, never triggers the
HDR-blank cleanup, and returns Ok; restoring the same matching profile twice
therefore performs zero writes and returns Ok on both calls.  (The
collaborator's topology-equality predicate is assumed reflexive, which is what
makes literal equality of topologies observable to the code.) -/
theorem restore_c2 {β : Type} (api : WinDisplayDeviceApi)
    (decodeConfig : β → Option SingleDisplayConfigState) (data : β)
    (snap : SingleDisplayConfigState)
    (hdec : decodeConfig data = some snap)
    (hrefl : ∀ t, api.isTopologyTheSame t t = true)
    (hacc : api.isApiAccessAvailable [] = true)
    (hlive : ∀ tr, api.getCurrentTopology tr = snap.modified.topology)
    (hvalid : api.isTopologyValid snap.modified.topology = true)
    (hhdr : ∀ tr, api.getCurrentHdrStates tr (api.flattenTopology snap.modified.topology)
      = snap.modified.hdrStates)
    (hmodes : ∀ tr, api.getCurrentDisplayModes tr (api.flattenTopology snap.modified.topology)
      = snap.modified.modes)
    (hprim : ∀ tr, api.getPrimaryDevice tr snap.modified.topology = snap.modified.primaryDevice)
    (hinit : snap.initial.topology = snap.modified.topology) :
    (restoreFromProfile api decodeConfig data).1 = RevertResult.ok
    ∧ (∀ e ∈ (restoreFromProfile api decodeConfig data).2, e.isWrite = false)
    ∧ DdEvent.blankHdr ∉ (restoreFromProfile api decodeConfig data).2 := by
  simp [restoreFromProfile, restoreStepOne, restoreStepTwo, restoreStepThree,
    restoreStepFour, restoreStepFive, finishRestore,
    hdec, hacc, hlive, hvalid, hhdr, hmodes, hprim, hinit, hrefl]
  split_ifs <;> simp [DdEvent.isWrite]

/-- Witness for C2: a concrete matching profile restores with zero writes. -/
theorem restore_c2_witness :
    (restoreFromProfile (mkApi true topoA modesA hdrA "DEV1" true) idDecode (some snapA)).1
      = RevertResult.ok
    ∧ (∀ e ∈ (restoreFromProfile (mkApi true topoA modesA hdrA "DEV1" true) idDecode
        (some snapA)).2, e.isWrite = false)
    ∧ DdEvent.blankHdr
        ∉ (restoreFromProfile (mkApi true topoA modesA hdrA "DEV1" true) idDecode
            (some snapA)).2 :=
  restore_c2 (mkApi true topoA modesA hdrA "DEV1" true) idDecode (some snapA) snapA rfl
    (fun t => by simp [mkApi]) rfl (fun _ => rfl) (by decide)
    (fun _ => rfl) (fun _ => rfl) (fun _ => rfl) (by decide)

lemma finishRestore_snd (touched : Bool) (r : RevertResult) (tr : List DdEvent) :
    (finishRestore touched r tr).2 = tr ++ if touched then [DdEvent.blankHdr] else [] := by
  cases touched <;> simp [finishRestore]

lemma strictShape_append (k l : List DdEvent) (hk : ∀ e ∈ k, e.isStrictToggle = false)
    (hl : StrictShape l) : StrictShape (k ++ l) := by
  rcases hl with h | ⟨pre, m, b, post, rfl, hpre, hpost⟩
  · refine Or.inl ?_
    intro e he
    rcases List.mem_append.1 he with h1 | h2
    exacts [hk e h1, h e h2]
  · refine Or.inr ⟨k ++ pre, m, b, post, by simp, ?_, hpost⟩
    intro e he
    rcases List.mem_append.1 he with h1 | h2
    exacts [hk e h1, hpre e h2]

lemma free_post_comp {tr k p : List DdEvent}
    (h : ∃ post, p = (tr ++ k) ++ post ∧ ∀ e ∈ post, e.isStrictToggle = false)
    (hk : ∀ e ∈ k, e.isStrictToggle = false) :
    ∃ post, p = tr ++ post ∧ ∀ e ∈ post, e.isStrictToggle = false := by
  obtain ⟨post, heq, hf⟩ := h
  refine ⟨k ++ post, by simpa [List.append_assoc] using heq, ?_⟩
  intro e he
  rcases List.mem_append.1 he with h1 | h2
  exacts [hk e h1, hf e h2]

lemma shape_post_comp {tr k p : List DdEvent}
    (h : ∃ post, p = (tr ++ k) ++ post ∧ StrictShape post)
    (hk : ∀ e ∈ k, e.isStrictToggle = false) :
    ∃ post, p = tr ++ post ∧ StrictShape post := by
  obtain ⟨post, heq, hf⟩ := h
  exact ⟨k ++ post, by simpa [List.append_assoc] using heq, strictShape_append k post hk hf⟩

lemma restoreStepFive_strict (api : WinDisplayDeviceApi) (snap : SingleDisplayConfigState)
    (touched : Bool) (tr : List DdEvent) :
    ∃ post, (restoreStepFive api snap touched tr).2 = tr ++ post
      ∧ ∀ e ∈ post, e.isStrictToggle = false := by
  cases hv : api.isTopologyValid snap.initial.topology with
  | false =>
    refine ⟨if touched then [DdEvent.blankHdr] else [], ?_, ?_⟩
    · simp [restoreStepFive, hv, finishRestore_snd]
    · cases touched <;> simp [DdEvent.isStrictToggle]
  | true =>
    cases hs : api.isTopologyTheSame snap.modified.topology snap.initial.topology with
    | true =>
      refine ⟨if touched then [DdEvent.blankHdr] else [], ?_, ?_⟩
      · simp [restoreStepFive, hv, hs, finishRestore_snd]
      · cases touched <;> simp [DdEvent.isStrictToggle]
    | false =>
      cases hw : api.setTopologySucceeds tr snap.initial.topology with
      | true =>
        exact ⟨[DdEvent.writeTopology snap.initial.topology true, DdEvent.blankHdr],
          by simp [restoreStepFive, hv, hs, hw, finishRestore_snd],
          by simp [DdEvent.isStrictToggle]⟩
      | false =>
        exact ⟨[DdEvent.writeTopology snap.initial.topology false, DdEvent.blankHdr],
          by simp [restoreStepFive, hv, hs, hw, finishRestore_snd],
          by simp [DdEvent.isStrictToggle]⟩

lemma restoreStepFour_strict (api : WinDisplayDeviceApi) (snap : SingleDisplayConfigState)
    (touched : Bool) (tr : List DdEvent) :
    ∃ post, (restoreStepFour api snap touched tr).2 = tr ++ post
      ∧ ∀ e ∈ post, e.isStrictToggle = false := by
  by_cases hp : snap.modified.primaryDevice = ""
  · rw [restoreStepFour, if_pos hp]
    exact restoreStepFive_strict api snap touched tr
  · simp only [restoreStepFour, if_neg hp]
    by_cases hc : api.getPrimaryDevice tr snap.modified.topology = snap.modified.primaryDevice
    · rw [if_pos hc]
      exact free_post_comp (restoreStepFive_strict api snap touched _)
        (by simp [DdEvent.isStrictToggle])
    · rw [if_neg hc]
      cases hw : api.setAsPrimarySucceeds
          (tr ++ [DdEvent.queryPrimary snap.modified.topology
            (api.getPrimaryDevice tr snap.modified.topology)])
          snap.modified.primaryDevice with
      | true =>
        rw [if_pos rfl]
        exact free_post_comp
          (free_post_comp (restoreStepFive_strict api snap true _)
            (by simp [DdEvent.isStrictToggle]))
          (by simp [DdEvent.isStrictToggle])
      | false =>
        rw [if_neg Bool.false_ne_true]
        exact ⟨[DdEvent.queryPrimary snap.modified.topology
            (api.getPrimaryDevice tr snap.modified.topology),
          DdEvent.writePrimary snap.modified.primaryDevice false, DdEvent.blankHdr],
          by simp [finishRestore_snd], by simp [DdEvent.isStrictToggle]⟩

lemma restoreStepThree_strict (api : WinDisplayDeviceApi) (snap : SingleDisplayConfigState)
    (touched : Bool) (tr : List DdEvent) :
    ∃ post, (restoreStepThree api snap touched tr).2 = tr ++ post ∧ StrictShape post := by
  by_cases hm : snap.modified.modes = []
  · rw [restoreStepThree, if_pos hm]
    obtain ⟨post, heq, hf⟩ := restoreStepFour_strict api snap touched tr
    exact ⟨post, heq, Or.inl hf⟩
  · simp only [restoreStepThree, if_neg hm]
    by_cases hc : api.getCurrentDisplayModes tr (api.flattenTopology snap.modified.topology)
        = snap.modified.modes
    · rw [if_pos hc]
      obtain ⟨post, heq, hf⟩ := restoreStepFour_strict api snap touched
        (tr ++ [DdEvent.queryModes (api.flattenTopology snap.modified.topology)
          (api.getCurrentDisplayModes tr (api.flattenTopology snap.modified.topology))])
      exact shape_post_comp ⟨post, heq, Or.inl hf⟩ (by simp [DdEvent.isStrictToggle])
    · rw [if_neg hc]
      cases hw : api.setDisplayModesSucceeds
          ((tr ++ [DdEvent.queryModes (api.flattenTopology snap.modified.topology)
            (api.getCurrentDisplayModes tr (api.flattenTopology snap.modified.topology))])
            ++ [DdEvent.strictModeFlag true])
          snap.modified.modes with
      | true =>
        rw [if_pos rfl]
        obtain ⟨post, heq, hf⟩ := restoreStepFour_strict api snap true
          ((((tr ++ [DdEvent.queryModes (api.flattenTopology snap.modified.topology)
              (api.getCurrentDisplayModes tr (api.flattenTopology snap.modified.topology))])
            ++ [DdEvent.strictModeFlag true]))
            ++ [DdEvent.writeModes snap.modified.modes true, DdEvent.strictModeFlag false])
        refine ⟨[DdEvent.queryModes (api.flattenTopology snap.modified.topology)
            (api.getCurrentDisplayModes tr (api.flattenTopology snap.modified.topology)),
          DdEvent.strictModeFlag true, DdEvent.writeModes snap.modified.modes true,
          DdEvent.strictModeFlag false] ++ post, by simpa [List.append_assoc] using heq, ?_⟩
        exact Or.inr ⟨[DdEvent.queryModes (api.flattenTopology snap.modified.topology)
            (api.getCurrentDisplayModes tr (api.flattenTopology snap.modified.topology))],
          snap.modified.modes, true, post, by simp, by simp [DdEvent.isStrictToggle], hf⟩
      | false =>
        rw [if_neg Bool.false_ne_true]
        refine ⟨[DdEvent.queryModes (api.flattenTopology snap.modified.topology)
            (api.getCurrentDisplayModes tr (api.flattenTopology snap.modified.topology)),
          DdEvent.strictModeFlag true, DdEvent.writeModes snap.modified.modes false,
          DdEvent.strictModeFlag false, DdEvent.blankHdr], by simp [finishRestore_snd], ?_⟩
        exact Or.inr ⟨[DdEvent.queryModes (api.flattenTopology snap.modified.topology)
            (api.getCurrentDisplayModes tr (api.flattenTopology snap.modified.topology))],
          snap.modified.modes, false, [DdEvent.blankHdr], by simp,
          by simp [DdEvent.isStrictToggle], by simp [DdEvent.isStrictToggle]⟩

lemma restoreStepTwo_strict (api : WinDisplayDeviceApi) (snap : SingleDisplayConfigState)
    (touched : Bool) (tr : List DdEvent) :
    ∃ post, (restoreStepTwo api snap touched tr).2 = tr ++ post ∧ StrictShape post := by
  by_cases hh : snap.modified.hdrStates = []
  · rw [restoreStepTwo, if_pos hh]
    exact restoreStepThree_strict api snap touched tr
  · simp only [restoreStepTwo, if_neg hh]
    by_cases hc : api.getCurrentHdrStates tr (api.flattenTopology snap.modified.topology)
        = snap.modified.hdrStates
    · rw [if_pos hc]
      exact shape_post_comp (restoreStepThree_strict api snap touched _)
        (by simp [DdEvent.isStrictToggle])
    · rw [if_neg hc]
      cases hw : api.setHdrStatesSucceeds
          (tr ++ [DdEvent.queryHdrStates (api.flattenTopology snap.modified.topology)
            (api.getCurrentHdrStates tr (api.flattenTopology snap.modified.topology))])
          snap.modified.hdrStates with
      | true =>
        rw [if_pos rfl]
        exact shape_post_comp
          (shape_post_comp (restoreStepThree_strict api snap true _)
            (by simp [DdEvent.isStrictToggle]))
          (by simp [DdEvent.isStrictToggle])
      | false =>
        rw [if_neg Bool.false_ne_true]
        refine ⟨[DdEvent.queryHdrStates (api.flattenTopology snap.modified.topology)
            (api.getCurrentHdrStates tr (api.flattenTopology snap.modified.topology)),
          DdEvent.writeHdrStates snap.modified.hdrStates false, DdEvent.blankHdr],
          by simp [finishRestore_snd], ?_⟩
        exact Or.inl (by simp [DdEvent.isStrictToggle])

lemma restoreStepOne_strict (api : WinDisplayDeviceApi) (snap : SingleDisplayConfigState)
    (currentTopology : Topology) (tr : List DdEvent) :
    ∃ post, (restoreStepOne api snap currentTopology tr).2 = tr ++ post
      ∧ StrictShape post := by
  cases hv : api.isTopologyValid snap.modified.topology with
  | false =>
    refine ⟨[], ?_, Or.inl (by simp)⟩
    simp [restoreStepOne, hv, finishRestore_snd]
  | true =>
    cases hs : api.isTopologyTheSame currentTopology snap.modified.topology with
    | true =>
      simp only [restoreStepOne, hv, hs, Bool.not_true, Bool.false_eq_true, if_false, if_true]
      exact restoreStepTwo_strict api snap false tr
    | false =>
      cases hw : api.setTopologySucceeds tr snap.modified.topology with
      | true =>
        simp only [restoreStepOne, hv, hs, hw, Bool.not_true, Bool.false_eq_true, if_false,
          if_true]
        exact shape_post_comp (restoreStepTwo_strict api snap true _)
          (by simp [DdEvent.isStrictToggle])
      | false =>
        refine ⟨[DdEvent.writeTopology snap.modified.topology false, DdEvent.blankHdr],
          ?_, Or.inl (by simp [DdEvent.isStrictToggle])⟩
        simp [restoreStepOne, hv, hs, hw, finishRestore_snd]

/-- Claim C4: on every run of `restoreFromProfile`, over every collaborator
behaviour and every buffer, the strict-mode flag is toggled either not at all
or exactly twice — enabled immediately before the single step-3
`setDisplayModes` write and disabled immediately after it, on the success and
the failure path alike — so the flag is observed disabled before step 3
begins, after step 3 ends, and on every exit of the function. -/
theorem restore_c4 {β : Type} (api : WinDisplayDeviceApi)
    (decodeConfig : β → Option SingleDisplayConfigState) (data : β) :
    StrictShape (restoreFromProfile api decodeConfig data).2 := by
  cases hA : api.isApiAccessAvailable [] with
  | false =>
    simp only [restoreFromProfile, hA]
    exact Or.inl (by simp [DdEvent.isStrictToggle])
  | true =>
    cases hV : api.isTopologyValid
        (api.getCurrentTopology [DdEvent.queryApiAccess true]) with
    | false =>
      simp only [restoreFromProfile, hA, hV]
      exact Or.inl (by simp [DdEvent.isStrictToggle])
    | true =>
      rcases hd : decodeConfig data with _ | snap
      · simp only [restoreFromProfile, hA, hV, hd]
        exact Or.inl (by simp [DdEvent.isStrictToggle])
      · have hmain : restoreFromProfile api decodeConfig data
            = restoreStepOne api snap (api.getCurrentTopology [DdEvent.queryApiAccess true])
              [DdEvent.queryApiAccess true,
                DdEvent.queryTopology (api.getCurrentTopology [DdEvent.queryApiAccess true])] := by
          simp [restoreFromProfile, hA, hV, hd]
        rw [hmain]
        obtain ⟨post, heq, hshape⟩ := restoreStepOne_strict api snap
          (api.getCurrentTopology [DdEvent.queryApiAccess true])
          [DdEvent.queryApiAccess true,
            DdEvent.queryTopology (api.getCurrentTopology [DdEvent.queryApiAccess true])]
        rw [heq]
        exact strictShape_append _ post (by simp [DdEvent.isStrictToggle]) hshape
lemma finishRestore_fst (touched : Bool) (r : RevertResult) (tr : List DdEvent) :
    (finishRestore touched r tr).1 = r := by
  cases touched <;> simp [finishRestore]

lemma finishRestore_true (r : RevertResult) (tr : List DdEvent) :
    finishRestore true r tr = (r, tr ++ [DdEvent.blankHdr]) := by
  simp [finishRestore]

lemma finishRestore_false (r : RevertResult) (tr : List DdEvent) :
    finishRestore false r tr = (r, tr) := by
  simp [finishRestore]

lemma restoreStepFive_results (api : WinDisplayDeviceApi) (snap : SingleDisplayConfigState)
    (touched : Bool) (tr : List DdEvent) :
    (restoreStepFive api snap touched tr).1 = RevertResult.topologyIsInvalid
    ∨ (restoreStepFive api snap touched tr).1 = RevertResult.ok
    ∨ (restoreStepFive api snap touched tr).1 = RevertResult.switchingTopologyFailed := by
  simp only [restoreStepFive]
  split_ifs <;> simp [finishRestore_fst]

lemma restoreStepFour_results (api : WinDisplayDeviceApi) (snap : SingleDisplayConfigState)
    (touched : Bool) (tr : List DdEvent) :
    (restoreStepFour api snap touched tr).1 = RevertResult.topologyIsInvalid
    ∨ (restoreStepFour api snap touched tr).1 = RevertResult.ok
    ∨ (restoreStepFour api snap touched tr).1 = RevertResult.switchingTopologyFailed
    ∨ (restoreStepFour api snap touched tr).1 = RevertResult.revertingPrimaryDeviceFailed := by
  simp only [restoreStepFour]
  split_ifs
  · exact Or.imp id (Or.imp id Or.inl) (restoreStepFive_results api snap touched tr)
  · exact Or.imp id (Or.imp id Or.inl) (restoreStepFive_results api snap touched _)
  · exact Or.imp id (Or.imp id Or.inl) (restoreStepFive_results api snap true _)
  · simp [finishRestore_fst]

lemma restoreStepThree_results (api : WinDisplayDeviceApi) (snap : SingleDisplayConfigState)
    (touched : Bool) (tr : List DdEvent) :
    (restoreStepThree api snap touched tr).1 = RevertResult.topologyIsInvalid
    ∨ (restoreStepThree api snap touched tr).1 = RevertResult.ok
    ∨ (restoreStepThree api snap touched tr).1 = RevertResult.switchingTopologyFailed
    ∨ (restoreStepThree api snap touched tr).1 = RevertResult.revertingPrimaryDeviceFailed
    ∨ (restoreStepThree api snap touched tr).1 = RevertResult.revertingDisplayModesFailed := by
  simp only [restoreStepThree]
  split_ifs
  · exact Or.imp id (Or.imp id (Or.imp id Or.inl))
      (restoreStepFour_results api snap touched tr)
  · exact Or.imp id (Or.imp id (Or.imp id Or.inl))
      (restoreStepFour_results api snap touched _)
  · exact Or.imp id (Or.imp id (Or.imp id Or.inl))
      (restoreStepFour_results api snap true _)
  · simp [finishRestore_fst]

lemma restoreStepTwo_results (api : WinDisplayDeviceApi) (snap : SingleDisplayConfigState)
    (touched : Bool) (tr : List DdEvent) :
    (restoreStepTwo api snap touched tr).1 = RevertResult.topologyIsInvalid
    ∨ (restoreStepTwo api snap touched tr).1 = RevertResult.ok
    ∨ (restoreStepTwo api snap touched tr).1 = RevertResult.switchingTopologyFailed
    ∨ (restoreStepTwo api snap touched tr).1 = RevertResult.revertingPrimaryDeviceFailed
    ∨ (restoreStepTwo api snap touched tr).1 = RevertResult.revertingDisplayModesFailed
    ∨ (restoreStepTwo api snap touched tr).1 = RevertResult.revertingHdrStatesFailed := by
  simp only [restoreStepTwo]
  split_ifs
  · exact Or.imp id (Or.imp id (Or.imp id (Or.imp id Or.inl)))
      (restoreStepThree_results api snap touched tr)
  · exact Or.imp id (Or.imp id (Or.imp id (Or.imp id Or.inl)))
      (restoreStepThree_results api snap touched _)
  · exact Or.imp id (Or.imp id (Or.imp id (Or.imp id Or.inl)))
      (restoreStepThree_results api snap true _)
  · simp [finishRestore_fst]

lemma restoreStepFive_blank (api : WinDisplayDeviceApi) (snap : SingleDisplayConfigState)
    (touched : Bool) (tr : List DdEvent)
    (hb : DdEvent.blankHdr ∉ tr)
    (ht : touched = true ↔ ∃ e ∈ tr, e.isWrite = true) :
    DdEvent.blankHdr ∈ (restoreStepFive api snap touched tr).2
      ↔ ∃ e ∈ (restoreStepFive api snap touched tr).2, e.isWrite = true := by
  have hfin : ∀ r : RevertResult,
      (DdEvent.blankHdr ∈ (finishRestore touched r tr).2
        ↔ ∃ e ∈ (finishRestore touched r tr).2, e.isWrite = true) := by
    intro r
    cases touched with
    | false =>
      rw [finishRestore_false]
      refine iff_of_false hb ?_
      rintro ⟨e, he, hw⟩
      exact Bool.false_ne_true (ht.2 ⟨e, he, hw⟩)
    | true =>
      rw [finishRestore_true]
      obtain ⟨e, he, hw⟩ := ht.1 rfl
      exact iff_of_true (by simp) ⟨e, by simp [he], hw⟩
  simp only [restoreStepFive]
  split_ifs
  · exact hfin _
  · exact hfin _
  · rw [finishRestore_true]
    exact iff_of_true (by simp)
      ⟨DdEvent.writeTopology snap.initial.topology true, by simp, by simp [DdEvent.isWrite]⟩
  · rw [finishRestore_true]
    exact iff_of_true (by simp)
      ⟨DdEvent.writeTopology snap.initial.topology false, by simp, by simp [DdEvent.isWrite]⟩

lemma restoreStepFour_blank (api : WinDisplayDeviceApi) (snap : SingleDisplayConfigState)
    (touched : Bool) (tr : List DdEvent)
    (hb : DdEvent.blankHdr ∉ tr)
    (ht : touched = true ↔ ∃ e ∈ tr, e.isWrite = true) :
    DdEvent.blankHdr ∈ (restoreStepFour api snap touched tr).2
      ↔ ∃ e ∈ (restoreStepFour api snap touched tr).2, e.isWrite = true := by
  simp only [restoreStepFour]
  split_ifs
  · exact restoreStepFive_blank api snap touched tr hb ht
  · exact restoreStepFive_blank api snap touched _ (by simp [hb])
      (by rw [ht]; simp [DdEvent.isWrite, or_and_right, exists_or, exists_eq_left])
  · exact restoreStepFive_blank api snap true _ (by simp [hb])
      (by simp [DdEvent.isWrite, or_and_right, exists_or, exists_eq_left])
  · rw [finishRestore_true]
    exact iff_of_true (by simp)
      ⟨DdEvent.writePrimary snap.modified.primaryDevice false, by simp, by simp [DdEvent.isWrite]⟩

lemma restoreStepThree_blank (api : WinDisplayDeviceApi) (snap : SingleDisplayConfigState)
    (touched : Bool) (tr : List DdEvent)
    (hb : DdEvent.blankHdr ∉ tr)
    (ht : touched = true ↔ ∃ e ∈ tr, e.isWrite = true) :
    DdEvent.blankHdr ∈ (restoreStepThree api snap touched tr).2
      ↔ ∃ e ∈ (restoreStepThree api snap touched tr).2, e.isWrite = true := by
  simp only [restoreStepThree]
  split_ifs
  · exact restoreStepFour_blank api snap touched tr hb ht
  · exact restoreStepFour_blank api snap touched _ (by simp [hb])
      (by rw [ht]; simp [DdEvent.isWrite, or_and_right, exists_or, exists_eq_left])
  · exact restoreStepFour_blank api snap true _ (by simp [hb])
      (by simp [DdEvent.isWrite, or_and_right, exists_or, exists_eq_left])
  · rw [finishRestore_true]
    exact iff_of_true (by simp)
      ⟨DdEvent.writeModes snap.modified.modes false, by simp, by simp [DdEvent.isWrite]⟩

lemma restoreStepTwo_blank (api : WinDisplayDeviceApi) (snap : SingleDisplayConfigState)
    (touched : Bool) (tr : List DdEvent)
    (hb : DdEvent.blankHdr ∉ tr)
    (ht : touched = true ↔ ∃ e ∈ tr, e.isWrite = true) :
    DdEvent.blankHdr ∈ (restoreStepTwo api snap touched tr).2
      ↔ ∃ e ∈ (restoreStepTwo api snap touched tr).2, e.isWrite = true := by
  simp only [restoreStepTwo]
  split_ifs
  · exact restoreStepThree_blank api snap touched tr hb ht
  · exact restoreStepThree_blank api snap touched _ (by simp [hb])
      (by rw [ht]; simp [DdEvent.isWrite, or_and_right, exists_or, exists_eq_left])
  · exact restoreStepThree_blank api snap true _ (by simp [hb])
      (by simp [DdEvent.isWrite, or_and_right, exists_or, exists_eq_left])
  · rw [finishRestore_true]
    exact iff_of_true (by simp)
      ⟨DdEvent.writeHdrStates snap.modified.hdrStates false, by simp, by simp [DdEvent.isWrite]⟩

lemma restoreStepOne_blank (api : WinDisplayDeviceApi) (snap : SingleDisplayConfigState)
    (currentTopology : Topology) (tr : List DdEvent)
    (hb : DdEvent.blankHdr ∉ tr)
    (hw : ∀ e ∈ tr, e.isWrite = false) :
    DdEvent.blankHdr ∈ (restoreStepOne api snap currentTopology tr).2
      ↔ ∃ e ∈ (restoreStepOne api snap currentTopology tr).2, e.isWrite = true := by
  have hnw : ¬ ∃ e ∈ tr, e.isWrite = true := by
    rintro ⟨e, he, hwe⟩
    rw [hw e he] at hwe
    exact Bool.false_ne_true hwe
  simp only [restoreStepOne]
  split_ifs
  · rw [finishRestore_false]
    exact iff_of_false hb hnw
  · exact restoreStepTwo_blank api snap false tr hb (iff_of_false (by simp) hnw)
  · exact restoreStepTwo_blank api snap true _ (by simp [hb])
      (by simp [DdEvent.isWrite, or_and_right, exists_or, exists_eq_left])
  · rw [finishRestore_true]
    exact iff_of_true (by simp)
      ⟨DdEvent.writeTopology snap.modified.topology false, by simp, by simp [DdEvent.isWrite]⟩

lemma restoreStepFive_okClean (api : WinDisplayDeviceApi) (snap : SingleDisplayConfigState)
    (touched : Bool) (tr : List DdEvent)
    (hnf : ∀ e ∈ tr, e.isFailedWrite = false) :
    (restoreStepFive api snap touched tr).1 = RevertResult.ok →
      ∀ e ∈ (restoreStepFive api snap touched tr).2, e.isFailedWrite = false := by
  have hfin : ∀ r : RevertResult, ∀ e ∈ (finishRestore touched r tr).2, e.isFailedWrite = false := by
    intro r
    cases touched with
    | false => rw [finishRestore_false]; exact hnf
    | true =>
      rw [finishRestore_true]
      intro e he
      rcases (by simpa using he : e ∈ tr ∨ e = DdEvent.blankHdr) with h | h
      · exact hnf e h
      · subst h; rfl
  simp only [restoreStepFive]
  split_ifs
  · exact fun h => absurd (by rw [finishRestore_fst] at h; exact h) (by simp)
  · exact fun _ => hfin _
  · intro _
    rw [finishRestore_true]
    intro e he
    rcases (by simpa using he :
        e ∈ tr ∨ e = DdEvent.writeTopology snap.initial.topology true ∨ e = DdEvent.blankHdr)
      with h | h | h
    · exact hnf e h
    · subst h; rfl
    · subst h; rfl
  · exact fun h => absurd (by rw [finishRestore_fst] at h; exact h) (by simp)

lemma restoreStepFour_okClean (api : WinDisplayDeviceApi) (snap : SingleDisplayConfigState)
    (touched : Bool) (tr : List DdEvent)
    (hnf : ∀ e ∈ tr, e.isFailedWrite = false) :
    (restoreStepFour api snap touched tr).1 = RevertResult.ok →
      ∀ e ∈ (restoreStepFour api snap touched tr).2, e.isFailedWrite = false := by
  simp only [restoreStepFour]
  split_ifs
  · exact restoreStepFive_okClean api snap touched tr hnf
  · refine restoreStepFive_okClean api snap touched _ ?_
    intro e he
    rcases (by simpa using he :
        e ∈ tr ∨ e = DdEvent.queryPrimary snap.modified.topology
          (api.getPrimaryDevice tr snap.modified.topology)) with h | h
    · exact hnf e h
    · subst h; rfl
  · refine restoreStepFive_okClean api snap true _ ?_
    intro e he
    rcases (by simpa using he :
        e ∈ tr ∨ e = DdEvent.queryPrimary snap.modified.topology
          (api.getPrimaryDevice tr snap.modified.topology)
        ∨ e = DdEvent.writePrimary snap.modified.primaryDevice true) with h | h | h
    · exact hnf e h
    · subst h; rfl
    · subst h; rfl
  · exact fun h => absurd (by rw [finishRestore_fst] at h; exact h) (by simp)

lemma restoreStepThree_okClean (api : WinDisplayDeviceApi) (snap : SingleDisplayConfigState)
    (touched : Bool) (tr : List DdEvent)
    (hnf : ∀ e ∈ tr, e.isFailedWrite = false) :
    (restoreStepThree api snap touched tr).1 = RevertResult.ok →
      ∀ e ∈ (restoreStepThree api snap touched tr).2, e.isFailedWrite = false := by
  simp only [restoreStepThree]
  split_ifs
  · exact restoreStepFour_okClean api snap touched tr hnf
  · refine restoreStepFour_okClean api snap touched _ ?_
    intro e he
    rcases (by simpa using he :
        e ∈ tr ∨ e = DdEvent.queryModes (api.flattenTopology snap.modified.topology)
          (api.getCurrentDisplayModes tr (api.flattenTopology snap.modified.topology)))
      with h | h
    · exact hnf e h
    · subst h; rfl
  · refine restoreStepFour_okClean api snap true _ ?_
    intro e he
    rcases (by simpa using he :
        e ∈ tr ∨ e = DdEvent.queryModes (api.flattenTopology snap.modified.topology)
          (api.getCurrentDisplayModes tr (api.flattenTopology snap.modified.topology))
        ∨ e = DdEvent.strictModeFlag true
        ∨ e = DdEvent.writeModes snap.modified.modes true
        ∨ e = DdEvent.strictModeFlag false) with h | h | h | h | h
    · exact hnf e h
    · subst h; rfl
    · subst h; rfl
    · subst h; rfl
    · subst h; rfl
  · exact fun h => absurd (by rw [finishRestore_fst] at h; exact h) (by simp)

lemma restoreStepTwo_okClean (api : WinDisplayDeviceApi) (snap : SingleDisplayConfigState)
    (touched : Bool) (tr : List DdEvent)
    (hnf : ∀ e ∈ tr, e.isFailedWrite = false) :
    (restoreStepTwo api snap touched tr).1 = RevertResult.ok →
      ∀ e ∈ (restoreStepTwo api snap touched tr).2, e.isFailedWrite = false := by
  simp only [restoreStepTwo]
  split_ifs
  · exact restoreStepThree_okClean api snap touched tr hnf
  · refine restoreStepThree_okClean api snap touched _ ?_
    intro e he
    rcases (by simpa using he :
        e ∈ tr ∨ e = DdEvent.queryHdrStates (api.flattenTopology snap.modified.topology)
          (api.getCurrentHdrStates tr (api.flattenTopology snap.modified.topology)))
      with h | h
    · exact hnf e h
    · subst h; rfl
  · refine restoreStepThree_okClean api snap true _ ?_
    intro e he
    rcases (by simpa using he :
        e ∈ tr ∨ e = DdEvent.queryHdrStates (api.flattenTopology snap.modified.topology)
          (api.getCurrentHdrStates tr (api.flattenTopology snap.modified.topology))
        ∨ e = DdEvent.writeHdrStates snap.modified.hdrStates true) with h | h | h
    · exact hnf e h
    · subst h; rfl
    · subst h; rfl
  · exact fun h => absurd (by rw [finishRestore_fst] at h; exact h) (by simp)

lemma restoreStepOne_okClean (api : WinDisplayDeviceApi) (snap : SingleDisplayConfigState)
    (currentTopology : Topology) (tr : List DdEvent)
    (hnf : ∀ e ∈ tr, e.isFailedWrite = false) :
    (restoreStepOne api snap currentTopology tr).1 = RevertResult.ok →
      ∀ e ∈ (restoreStepOne api snap currentTopology tr).2, e.isFailedWrite = false := by
  simp only [restoreStepOne]
  split_ifs
  · exact fun h => absurd (by rw [finishRestore_fst] at h; exact h) (by simp)
  · exact restoreStepTwo_okClean api snap false tr hnf
  · refine restoreStepTwo_okClean api snap true _ ?_
    intro e he
    rcases (by simpa using he :
        e ∈ tr ∨ e = DdEvent.writeTopology snap.modified.topology true) with h | h
    · exact hnf e h
    · subst h; rfl
  · exact fun h => absurd (by rw [finishRestore_fst] at h; exact h) (by simp)

lemma restoreStepFive_ne_hdrFail (api : WinDisplayDeviceApi) (snap : SingleDisplayConfigState)
    (touched : Bool) (tr : List DdEvent) :
    (restoreStepFive api snap touched tr).1 ≠ RevertResult.revertingHdrStatesFailed := by
  rcases restoreStepFive_results api snap touched tr with h | h | h <;> simp [h]

lemma restoreStepFive_ne_modesFail (api : WinDisplayDeviceApi) (snap : SingleDisplayConfigState)
    (touched : Bool) (tr : List DdEvent) :
    (restoreStepFive api snap touched tr).1 ≠ RevertResult.revertingDisplayModesFailed := by
  rcases restoreStepFive_results api snap touched tr with h | h | h <;> simp [h]

lemma restoreStepFive_ne_primaryFail (api : WinDisplayDeviceApi) (snap : SingleDisplayConfigState)
    (touched : Bool) (tr : List DdEvent) :
    (restoreStepFive api snap touched tr).1 ≠ RevertResult.revertingPrimaryDeviceFailed := by
  rcases restoreStepFive_results api snap touched tr with h | h | h <;> simp [h]

lemma restoreStepFour_ne_hdrFail (api : WinDisplayDeviceApi) (snap : SingleDisplayConfigState)
    (touched : Bool) (tr : List DdEvent) :
    (restoreStepFour api snap touched tr).1 ≠ RevertResult.revertingHdrStatesFailed := by
  rcases restoreStepFour_results api snap touched tr with h | h | h | h <;> simp [h]

lemma restoreStepFour_ne_modesFail (api : WinDisplayDeviceApi) (snap : SingleDisplayConfigState)
    (touched : Bool) (tr : List DdEvent) :
    (restoreStepFour api snap touched tr).1 ≠ RevertResult.revertingDisplayModesFailed := by
  rcases restoreStepFour_results api snap touched tr with h | h | h | h <;> simp [h]

lemma restoreStepThree_ne_hdrFail (api : WinDisplayDeviceApi) (snap : SingleDisplayConfigState)
    (touched : Bool) (tr : List DdEvent) :
    (restoreStepThree api snap touched tr).1 ≠ RevertResult.revertingHdrStatesFailed := by
  rcases restoreStepThree_results api snap touched tr with h | h | h | h | h <;> simp [h]

lemma restoreStepFive_success (api : WinDisplayDeviceApi) (snap : SingleDisplayConfigState)
    (touched : Bool) (tr : List DdEvent)
    (hvi : api.isTopologyValid snap.initial.topology = true)
    (hclean : ∀ e ∈ (restoreStepFive api snap touched tr).2, e.isFailedWrite = false) :
    (restoreStepFive api snap touched tr).1 = RevertResult.ok := by
  simp only [restoreStepFive] at hclean ⊢
  split_ifs at hclean ⊢ with h1 h2 h3
  · simp [hvi] at h1
  · rw [finishRestore_fst]
  · rw [finishRestore_fst]
  · rw [finishRestore_true] at hclean
    have := hclean (DdEvent.writeTopology snap.initial.topology false) (by simp)
    simp [DdEvent.isFailedWrite] at this

lemma restoreStepFour_success (api : WinDisplayDeviceApi) (snap : SingleDisplayConfigState)
    (touched : Bool) (tr : List DdEvent)
    (hvi : api.isTopologyValid snap.initial.topology = true)
    (hclean : ∀ e ∈ (restoreStepFour api snap touched tr).2, e.isFailedWrite = false) :
    (restoreStepFour api snap touched tr).1 = RevertResult.ok := by
  simp only [restoreStepFour] at hclean ⊢
  split_ifs at hclean ⊢
  · exact restoreStepFive_success api snap touched tr hvi hclean
  · exact restoreStepFive_success api snap touched _ hvi hclean
  · exact restoreStepFive_success api snap true _ hvi hclean
  · rw [finishRestore_true] at hclean
    have := hclean (DdEvent.writePrimary snap.modified.primaryDevice false) (by simp)
    simp [DdEvent.isFailedWrite] at this

lemma restoreStepThree_success (api : WinDisplayDeviceApi) (snap : SingleDisplayConfigState)
    (touched : Bool) (tr : List DdEvent)
    (hvi : api.isTopologyValid snap.initial.topology = true)
    (hclean : ∀ e ∈ (restoreStepThree api snap touched tr).2, e.isFailedWrite = false) :
    (restoreStepThree api snap touched tr).1 = RevertResult.ok := by
  simp only [restoreStepThree] at hclean ⊢
  split_ifs at hclean ⊢
  · exact restoreStepFour_success api snap touched tr hvi hclean
  · exact restoreStepFour_success api snap touched _ hvi hclean
  · exact restoreStepFour_success api snap true _ hvi hclean
  · rw [finishRestore_true] at hclean
    have := hclean (DdEvent.writeModes snap.modified.modes false) (by simp)
    simp [DdEvent.isFailedWrite] at this

lemma restoreStepTwo_success (api : WinDisplayDeviceApi) (snap : SingleDisplayConfigState)
    (touched : Bool) (tr : List DdEvent)
    (hvi : api.isTopologyValid snap.initial.topology = true)
    (hclean : ∀ e ∈ (restoreStepTwo api snap touched tr).2, e.isFailedWrite = false) :
    (restoreStepTwo api snap touched tr).1 = RevertResult.ok := by
  simp only [restoreStepTwo] at hclean ⊢
  split_ifs at hclean ⊢
  · exact restoreStepThree_success api snap touched tr hvi hclean
  · exact restoreStepThree_success api snap touched _ hvi hclean
  · exact restoreStepThree_success api snap true _ hvi hclean
  · rw [finishRestore_true] at hclean
    have := hclean (DdEvent.writeHdrStates snap.modified.hdrStates false) (by simp)
    simp [DdEvent.isFailedWrite] at this

lemma restoreStepOne_success (api : WinDisplayDeviceApi) (snap : SingleDisplayConfigState)
    (currentTopology : Topology) (tr : List DdEvent)
    (hvm : api.isTopologyValid snap.modified.topology = true)
    (hvi : api.isTopologyValid snap.initial.topology = true)
    (hclean : ∀ e ∈ (restoreStepOne api snap currentTopology tr).2, e.isFailedWrite = false) :
    (restoreStepOne api snap currentTopology tr).1 = RevertResult.ok := by
  simp only [restoreStepOne] at hclean ⊢
  split_ifs at hclean ⊢ with h1 h2 h3
  · simp [hvm] at h1
  · exact restoreStepTwo_success api snap false tr hvi hclean
  · exact restoreStepTwo_success api snap true _ hvi hclean
  · rw [finishRestore_true] at hclean
    have := hclean (DdEvent.writeTopology snap.modified.topology false) (by simp)
    simp [DdEvent.isFailedWrite] at this

lemma restoreStepTwo_hdrFail (api : WinDisplayDeviceApi) (snap : SingleDisplayConfigState)
    (touched : Bool) (tr : List DdEvent) :
    (restoreStepTwo api snap touched tr).1 = RevertResult.revertingHdrStatesFailed →
    ∃ pre, (restoreStepTwo api snap touched tr).2
        = tr ++ pre ++ [DdEvent.writeHdrStates snap.modified.hdrStates false, DdEvent.blankHdr]
      ∧ ∀ e ∈ pre, e.isModesStep = false ∧ e.isPrimaryStep = false := by
  simp only [restoreStepTwo]
  split_ifs
  · exact fun h => absurd h (restoreStepThree_ne_hdrFail api snap touched tr)
  · exact fun h => absurd h (restoreStepThree_ne_hdrFail api snap touched _)
  · exact fun h => absurd h (restoreStepThree_ne_hdrFail api snap true _)
  · intro _
    rw [finishRestore_true]
    refine ⟨[DdEvent.queryHdrStates (api.flattenTopology snap.modified.topology)
        (api.getCurrentHdrStates tr (api.flattenTopology snap.modified.topology))], by simp, ?_⟩
    simp [DdEvent.isModesStep, DdEvent.isPrimaryStep]

lemma restoreStepOne_hdrFail (api : WinDisplayDeviceApi) (snap : SingleDisplayConfigState)
    (currentTopology : Topology) (tr : List DdEvent) :
    (restoreStepOne api snap currentTopology tr).1 = RevertResult.revertingHdrStatesFailed →
    ∃ pre, (restoreStepOne api snap currentTopology tr).2
        = tr ++ pre ++ [DdEvent.writeHdrStates snap.modified.hdrStates false, DdEvent.blankHdr]
      ∧ ∀ e ∈ pre, e.isModesStep = false ∧ e.isPrimaryStep = false := by
  simp only [restoreStepOne]
  split_ifs
  · intro h; rw [finishRestore_fst] at h; exact absurd h (by simp)
  · exact restoreStepTwo_hdrFail api snap false tr
  · intro h
    obtain ⟨pre, heq, hp⟩ := restoreStepTwo_hdrFail api snap true _ h
    refine ⟨DdEvent.writeTopology snap.modified.topology true :: pre, by simpa using heq, ?_⟩
    intro e he
    rcases (by simpa using he :
        e = DdEvent.writeTopology snap.modified.topology true ∨ e ∈ pre) with h' | h'
    · subst h'; exact ⟨rfl, rfl⟩
    · exact hp e h'
  · intro h; rw [finishRestore_fst] at h; exact absurd h (by simp)

lemma restoreStepThree_modesFail (api : WinDisplayDeviceApi) (snap : SingleDisplayConfigState)
    (touched : Bool) (tr : List DdEvent) :
    (restoreStepThree api snap touched tr).1 = RevertResult.revertingDisplayModesFailed →
    ∃ pre, (restoreStepThree api snap touched tr).2
        = tr ++ pre ++ [DdEvent.writeModes snap.modified.modes false,
            DdEvent.strictModeFlag false, DdEvent.blankHdr]
      ∧ ∀ e ∈ pre, e.isPrimaryStep = false := by
  simp only [restoreStepThree]
  split_ifs
  · exact fun h => absurd h (restoreStepFour_ne_modesFail api snap touched tr)
  · exact fun h => absurd h (restoreStepFour_ne_modesFail api snap touched _)
  · exact fun h => absurd h (restoreStepFour_ne_modesFail api snap true _)
  · intro _
    rw [finishRestore_true]
    refine ⟨[DdEvent.queryModes (api.flattenTopology snap.modified.topology)
        (api.getCurrentDisplayModes tr (api.flattenTopology snap.modified.topology)),
      DdEvent.strictModeFlag true], by simp, ?_⟩
    simp [DdEvent.isPrimaryStep]

lemma restoreStepTwo_modesFail (api : WinDisplayDeviceApi) (snap : SingleDisplayConfigState)
    (touched : Bool) (tr : List DdEvent) :
    (restoreStepTwo api snap touched tr).1 = RevertResult.revertingDisplayModesFailed →
    ∃ pre, (restoreStepTwo api snap touched tr).2
        = tr ++ pre ++ [DdEvent.writeModes snap.modified.modes false,
            DdEvent.strictModeFlag false, DdEvent.blankHdr]
      ∧ ∀ e ∈ pre, e.isPrimaryStep = false := by
  simp only [restoreStepTwo]
  split_ifs
  · exact restoreStepThree_modesFail api snap touched tr
  · intro h
    obtain ⟨pre, heq, hp⟩ := restoreStepThree_modesFail api snap touched _ h
    refine ⟨DdEvent.queryHdrStates (api.flattenTopology snap.modified.topology)
        (api.getCurrentHdrStates tr (api.flattenTopology snap.modified.topology)) :: pre,
      by simpa using heq, ?_⟩
    intro e he
    rcases (by simpa using he :
        e = DdEvent.queryHdrStates (api.flattenTopology snap.modified.topology)
          (api.getCurrentHdrStates tr (api.flattenTopology snap.modified.topology))
        ∨ e ∈ pre) with h' | h'
    · subst h'; rfl
    · exact hp e h'
  · intro h
    obtain ⟨pre, heq, hp⟩ := restoreStepThree_modesFail api snap true _ h
    refine ⟨DdEvent.queryHdrStates (api.flattenTopology snap.modified.topology)
        (api.getCurrentHdrStates tr (api.flattenTopology snap.modified.topology))
      :: DdEvent.writeHdrStates snap.modified.hdrStates true :: pre,
      by simpa using heq, ?_⟩
    intro e he
    rcases (by simpa using he :
        e = DdEvent.queryHdrStates (api.flattenTopology snap.modified.topology)
          (api.getCurrentHdrStates tr (api.flattenTopology snap.modified.topology))
        ∨ e = DdEvent.writeHdrStates snap.modified.hdrStates true
        ∨ e ∈ pre) with h' | h' | h'
    · subst h'; rfl
    · subst h'; rfl
    · exact hp e h'
  · intro h; rw [finishRestore_fst] at h; exact absurd h (by simp)

lemma restoreStepOne_modesFail (api : WinDisplayDeviceApi) (snap : SingleDisplayConfigState)
    (currentTopology : Topology) (tr : List DdEvent) :
    (restoreStepOne api snap currentTopology tr).1 = RevertResult.revertingDisplayModesFailed →
    ∃ pre, (restoreStepOne api snap currentTopology tr).2
        = tr ++ pre ++ [DdEvent.writeModes snap.modified.modes false,
            DdEvent.strictModeFlag false, DdEvent.blankHdr]
      ∧ ∀ e ∈ pre, e.isPrimaryStep = false := by
  simp only [restoreStepOne]
  split_ifs
  · intro h; rw [finishRestore_fst] at h; exact absurd h (by simp)
  · exact restoreStepTwo_modesFail api snap false tr
  · intro h
    obtain ⟨pre, heq, hp⟩ := restoreStepTwo_modesFail api snap true _ h
    refine ⟨DdEvent.writeTopology snap.modified.topology true :: pre, by simpa using heq, ?_⟩
    intro e he
    rcases (by simpa using he :
        e = DdEvent.writeTopology snap.modified.topology true ∨ e ∈ pre) with h' | h'
    · subst h'; rfl
    · exact hp e h'
  · intro h; rw [finishRestore_fst] at h; exact absurd h (by simp)

lemma restoreStepFour_primFail (api : WinDisplayDeviceApi) (snap : SingleDisplayConfigState)
    (touched : Bool) (tr : List DdEvent) :
    (restoreStepFour api snap touched tr).1 = RevertResult.revertingPrimaryDeviceFailed →
    ∃ pre, (restoreStepFour api snap touched tr).2
        = tr ++ pre ++ [DdEvent.writePrimary snap.modified.primaryDevice false, DdEvent.blankHdr]
      ∧ ∀ t b, DdEvent.writeTopology t b ∈ pre → t = snap.modified.topology := by
  simp only [restoreStepFour]
  split_ifs
  · exact fun h => absurd h (restoreStepFive_ne_primaryFail api snap touched tr)
  · exact fun h => absurd h (restoreStepFive_ne_primaryFail api snap touched _)
  · exact fun h => absurd h (restoreStepFive_ne_primaryFail api snap true _)
  · intro _
    rw [finishRestore_true]
    refine ⟨[DdEvent.queryPrimary snap.modified.topology
        (api.getPrimaryDevice tr snap.modified.topology)], by simp, ?_⟩
    intro t b h
    simp at h

lemma restoreStepThree_primFail (api : WinDisplayDeviceApi) (snap : SingleDisplayConfigState)
    (touched : Bool) (tr : List DdEvent) :
    (restoreStepThree api snap touched tr).1 = RevertResult.revertingPrimaryDeviceFailed →
    ∃ pre, (restoreStepThree api snap touched tr).2
        = tr ++ pre ++ [DdEvent.writePrimary snap.modified.primaryDevice false, DdEvent.blankHdr]
      ∧ ∀ t b, DdEvent.writeTopology t b ∈ pre → t = snap.modified.topology := by
  simp only [restoreStepThree]
  split_ifs
  · exact restoreStepFour_primFail api snap touched tr
  · intro h
    obtain ⟨pre, heq, hp⟩ := restoreStepFour_primFail api snap touched _ h
    refine ⟨DdEvent.queryModes (api.flattenTopology snap.modified.topology)
        (api.getCurrentDisplayModes tr (api.flattenTopology snap.modified.topology)) :: pre,
      by simpa using heq, ?_⟩
    intro t b hm
    exact hp t b (by simpa using hm)
  · intro h
    obtain ⟨pre, heq, hp⟩ := restoreStepFour_primFail api snap true _ h
    refine ⟨DdEvent.queryModes (api.flattenTopology snap.modified.topology)
        (api.getCurrentDisplayModes tr (api.flattenTopology snap.modified.topology))
      :: DdEvent.strictModeFlag true :: DdEvent.writeModes snap.modified.modes true
      :: DdEvent.strictModeFlag false :: pre, by simpa using heq, ?_⟩
    intro t b hm
    exact hp t b (by simpa using hm)
  · intro h; rw [finishRestore_fst] at h; exact absurd h (by simp)

lemma restoreStepTwo_primFail (api : WinDisplayDeviceApi) (snap : SingleDisplayConfigState)
    (touched : Bool) (tr : List DdEvent) :
    (restoreStepTwo api snap touched tr).1 = RevertResult.revertingPrimaryDeviceFailed →
    ∃ pre, (restoreStepTwo api snap touched tr).2
        = tr ++ pre ++ [DdEvent.writePrimary snap.modified.primaryDevice false, DdEvent.blankHdr]
      ∧ ∀ t b, DdEvent.writeTopology t b ∈ pre → t = snap.modified.topology := by
  simp only [restoreStepTwo]
  split_ifs
  · exact restoreStepThree_primFail api snap touched tr
  · intro h
    obtain ⟨pre, heq, hp⟩ := restoreStepThree_primFail api snap touched _ h
    refine ⟨DdEvent.queryHdrStates (api.flattenTopology snap.modified.topology)
        (api.getCurrentHdrStates tr (api.flattenTopology snap.modified.topology)) :: pre,
      by simpa using heq, ?_⟩
    intro t b hm
    exact hp t b (by simpa using hm)
  · intro h
    obtain ⟨pre, heq, hp⟩ := restoreStepThree_primFail api snap true _ h
    refine ⟨DdEvent.queryHdrStates (api.flattenTopology snap.modified.topology)
        (api.getCurrentHdrStates tr (api.flattenTopology snap.modified.topology))
      :: DdEvent.writeHdrStates snap.modified.hdrStates true :: pre, by simpa using heq, ?_⟩
    intro t b hm
    exact hp t b (by simpa using hm)
  · intro h; rw [finishRestore_fst] at h; exact absurd h (by simp)

lemma restoreStepOne_primFail (api : WinDisplayDeviceApi) (snap : SingleDisplayConfigState)
    (currentTopology : Topology) (tr : List DdEvent) :
    (restoreStepOne api snap currentTopology tr).1 = RevertResult.revertingPrimaryDeviceFailed →
    ∃ pre, (restoreStepOne api snap currentTopology tr).2
        = tr ++ pre ++ [DdEvent.writePrimary snap.modified.primaryDevice false, DdEvent.blankHdr]
      ∧ ∀ t b, DdEvent.writeTopology t b ∈ pre → t = snap.modified.topology := by
  simp only [restoreStepOne]
  split_ifs
  · intro h; rw [finishRestore_fst] at h; exact absurd h (by simp)
  · exact restoreStepTwo_primFail api snap false tr
  · intro h
    obtain ⟨pre, heq, hp⟩ := restoreStepTwo_primFail api snap true _ h
    refine ⟨DdEvent.writeTopology snap.modified.topology true :: pre, by simpa using heq, ?_⟩
    intro t b hm
    rcases (by simpa using hm :
        (t = snap.modified.topology ∧ b = true) ∨ DdEvent.writeTopology t b ∈ pre) with h' | h'
    · exact h'.1
    · exact hp t b h'
  · intro h; rw [finishRestore_fst] at h; exact absurd h (by simp)

lemma restoreStepFive_swFail (api : WinDisplayDeviceApi) (snap : SingleDisplayConfigState)
    (touched : Bool) (tr : List DdEvent) :
    (restoreStepFive api snap touched tr).1 = RevertResult.switchingTopologyFailed →
    (restoreStepFive api snap touched tr).2
      = tr ++ [DdEvent.writeTopology snap.initial.topology false, DdEvent.blankHdr] := by
  simp only [restoreStepFive]
  split_ifs
  · intro h; rw [finishRestore_fst] at h; exact absurd h (by simp)
  · intro h; rw [finishRestore_fst] at h; exact absurd h (by simp)
  · intro h; rw [finishRestore_fst] at h; exact absurd h (by simp)
  · intro _; rw [finishRestore_true]; simp

lemma restoreStepFour_swFail (api : WinDisplayDeviceApi) (snap : SingleDisplayConfigState)
    (touched : Bool) (tr : List DdEvent) :
    (restoreStepFour api snap touched tr).1 = RevertResult.switchingTopologyFailed →
    ∃ pre, (restoreStepFour api snap touched tr).2
      = tr ++ pre ++ [DdEvent.writeTopology snap.initial.topology false, DdEvent.blankHdr] := by
  simp only [restoreStepFour]
  split_ifs
  · intro h
    exact ⟨[], by simpa using restoreStepFive_swFail api snap touched tr h⟩
  · intro h
    exact ⟨[DdEvent.queryPrimary snap.modified.topology
        (api.getPrimaryDevice tr snap.modified.topology)],
      by simpa using restoreStepFive_swFail api snap touched _ h⟩
  · intro h
    exact ⟨[DdEvent.queryPrimary snap.modified.topology
        (api.getPrimaryDevice tr snap.modified.topology),
      DdEvent.writePrimary snap.modified.primaryDevice true],
      by simpa using restoreStepFive_swFail api snap true _ h⟩
  · intro h; rw [finishRestore_fst] at h; exact absurd h (by simp)

lemma restoreStepThree_swFail (api : WinDisplayDeviceApi) (snap : SingleDisplayConfigState)
    (touched : Bool) (tr : List DdEvent) :
    (restoreStepThree api snap touched tr).1 = RevertResult.switchingTopologyFailed →
    ∃ pre, (restoreStepThree api snap touched tr).2
      = tr ++ pre ++ [DdEvent.writeTopology snap.initial.topology false, DdEvent.blankHdr] := by
  simp only [restoreStepThree]
  split_ifs
  · exact restoreStepFour_swFail api snap touched tr
  · intro h
    obtain ⟨pre, heq⟩ := restoreStepFour_swFail api snap touched _ h
    exact ⟨DdEvent.queryModes (api.flattenTopology snap.modified.topology)
        (api.getCurrentDisplayModes tr (api.flattenTopology snap.modified.topology)) :: pre,
      by simpa using heq⟩
  · intro h
    obtain ⟨pre, heq⟩ := restoreStepFour_swFail api snap true _ h
    exact ⟨DdEvent.queryModes (api.flattenTopology snap.modified.topology)
        (api.getCurrentDisplayModes tr (api.flattenTopology snap.modified.topology))
      :: DdEvent.strictModeFlag true :: DdEvent.writeModes snap.modified.modes true
      :: DdEvent.strictModeFlag false :: pre, by simpa using heq⟩
  · intro h; rw [finishRestore_fst] at h; exact absurd h (by simp)

lemma restoreStepTwo_swFail (api : WinDisplayDeviceApi) (snap : SingleDisplayConfigState)
    (touched : Bool) (tr : List DdEvent) :
    (restoreStepTwo api snap touched tr).1 = RevertResult.switchingTopologyFailed →
    ∃ pre, (restoreStepTwo api snap touched tr).2
      = tr ++ pre ++ [DdEvent.writeTopology snap.initial.topology false, DdEvent.blankHdr] := by
  simp only [restoreStepTwo]
  split_ifs
  · exact restoreStepThree_swFail api snap touched tr
  · intro h
    obtain ⟨pre, heq⟩ := restoreStepThree_swFail api snap touched _ h
    exact ⟨DdEvent.queryHdrStates (api.flattenTopology snap.modified.topology)
        (api.getCurrentHdrStates tr (api.flattenTopology snap.modified.topology)) :: pre,
      by simpa using heq⟩
  · intro h
    obtain ⟨pre, heq⟩ := restoreStepThree_swFail api snap true _ h
    exact ⟨DdEvent.queryHdrStates (api.flattenTopology snap.modified.topology)
        (api.getCurrentHdrStates tr (api.flattenTopology snap.modified.topology))
      :: DdEvent.writeHdrStates snap.modified.hdrStates true :: pre, by simpa using heq⟩
  · intro h; rw [finishRestore_fst] at h; exact absurd h (by simp)

lemma restoreStepOne_swFail (api : WinDisplayDeviceApi) (snap : SingleDisplayConfigState)
    (currentTopology : Topology) (tr : List DdEvent) :
    (restoreStepOne api snap currentTopology tr).1 = RevertResult.switchingTopologyFailed →
    (restoreStepOne api snap currentTopology tr).2
        = tr ++ [DdEvent.writeTopology snap.modified.topology false, DdEvent.blankHdr]
    ∨ ∃ pre, (restoreStepOne api snap currentTopology tr).2
        = tr ++ pre ++ [DdEvent.writeTopology snap.initial.topology false, DdEvent.blankHdr] := by
  simp only [restoreStepOne]
  split_ifs
  · intro h; rw [finishRestore_fst] at h; exact absurd h (by simp)
  · intro h
    exact Or.inr (restoreStepTwo_swFail api snap false tr h)
  · intro h
    obtain ⟨pre, heq⟩ := restoreStepTwo_swFail api snap true _ h
    exact Or.inr ⟨DdEvent.writeTopology snap.modified.topology true :: pre, by simpa using heq⟩
  · intro _
    rw [finishRestore_true]
    exact Or.inl (by simp)

/-- Claim C1: for every decoded profile and every collaborator behaviour, a
failure at any of the five ordered steps returns immediately with that step's
`RevertResult`: an HDR-write failure ends the run right at the failed write
(only the cleanup follows) with no step-3 or step-4 activity at all; a
mode-write failure ends the run right after the strict-flag reset with no
step-4 activity; a primary-write failure ends the run with no step-5 topology
write (every topology write targeted `modified.topology`); a topology-write
failure (step 1 or step 5) ends the run right there; the HDR-blank cleanup
runs exactly when some step marked the system touched, i.e. attempted a
device write; and when every validity check passes and no device write fails,
the result is Ok. -/
theorem restore_c1 {β : Type} (api : WinDisplayDeviceApi)
    (decodeConfig : β → Option SingleDisplayConfigState) (data : β)
    (snap : SingleDisplayConfigState) (hdec : decodeConfig data = some snap) :
    ∀ r evs, restoreFromProfile api decodeConfig data = (r, evs) →
    (DdEvent.blankHdr ∈ evs ↔ ∃ e ∈ evs, e.isWrite = true)
    ∧ (r = RevertResult.revertingHdrStatesFailed →
        [DdEvent.writeHdrStates snap.modified.hdrStates false, DdEvent.blankHdr] <:+ evs
        ∧ evs.filter DdEvent.isModesStep = [] ∧ evs.filter DdEvent.isPrimaryStep = [])
    ∧ (r = RevertResult.revertingDisplayModesFailed →
        [DdEvent.writeModes snap.modified.modes false, DdEvent.strictModeFlag false,
          DdEvent.blankHdr] <:+ evs
        ∧ evs.filter DdEvent.isPrimaryStep = [])
    ∧ (r = RevertResult.revertingPrimaryDeviceFailed →
        [DdEvent.writePrimary snap.modified.primaryDevice false, DdEvent.blankHdr] <:+ evs
        ∧ ∀ t b, DdEvent.writeTopology t b ∈ evs → t = snap.modified.topology)
    ∧ (r = RevertResult.switchingTopologyFailed →
        ∃ t, (t = snap.modified.topology ∨ t = snap.initial.topology)
          ∧ [DdEvent.writeTopology t false, DdEvent.blankHdr] <:+ evs)
    ∧ (r = RevertResult.ok → ∀ e ∈ evs, e.isFailedWrite = false)
    ∧ (api.isApiAccessAvailable [] = true →
       api.isTopologyValid (api.getCurrentTopology [DdEvent.queryApiAccess true]) = true →
       api.isTopologyValid snap.modified.topology = true →
       api.isTopologyValid snap.initial.topology = true →
       (∀ e ∈ evs, e.isFailedWrite = false) → r = RevertResult.ok) := by
  intro r evs hrun
  cases hA : api.isApiAccessAvailable [] with
  | false =>
    simp only [restoreFromProfile, hA, Bool.not_false, if_true] at hrun
    obtain ⟨rfl, rfl⟩ := Prod.mk.injEq .. ▸ hrun
    refine ⟨by simp [DdEvent.isWrite], by simp, by simp, by simp, by simp,
      by simp [DdEvent.isFailedWrite], ?_⟩
    intro hacc
    simp [hA] at hacc
  | true =>
    cases hV : api.isTopologyValid (api.getCurrentTopology [DdEvent.queryApiAccess true]) with
    | false =>
      rw [show restoreFromProfile api decodeConfig data
          = (RevertResult.topologyIsInvalid,
             [DdEvent.queryApiAccess true,
              DdEvent.queryTopology (api.getCurrentTopology [DdEvent.queryApiAccess true])])
        from by simp [restoreFromProfile, hA, hV]] at hrun
      obtain ⟨rfl, rfl⟩ := Prod.mk.injEq .. ▸ hrun
      refine ⟨by simp [DdEvent.isWrite], by simp, by simp, by simp, by simp,
        by simp [DdEvent.isFailedWrite], ?_⟩
      intro _ hlv
      simp [hV] at hlv
    | true =>
      rw [show restoreFromProfile api decodeConfig data
          = restoreStepOne api snap
              (api.getCurrentTopology [DdEvent.queryApiAccess true])
              [DdEvent.queryApiAccess true,
               DdEvent.queryTopology (api.getCurrentTopology [DdEvent.queryApiAccess true])]
        from by simp [restoreFromProfile, hA, hV, hdec]] at hrun
      have h1 : (restoreStepOne api snap
          (api.getCurrentTopology [DdEvent.queryApiAccess true])
          [DdEvent.queryApiAccess true,
           DdEvent.queryTopology (api.getCurrentTopology [DdEvent.queryApiAccess true])]).1
          = r := by rw [hrun]
      have h2 : (restoreStepOne api snap
          (api.getCurrentTopology [DdEvent.queryApiAccess true])
          [DdEvent.queryApiAccess true,
           DdEvent.queryTopology (api.getCurrentTopology [DdEvent.queryApiAccess true])]).2
          = evs := by rw [hrun]
      subst h1
      subst h2
      refine ⟨?_, ?_, ?_, ?_, ?_, ?_, ?_⟩
      · exact restoreStepOne_blank api snap _ _ (by simp) (by simp [DdEvent.isWrite])
      · intro h
        obtain ⟨pre, heq, hp⟩ := restoreStepOne_hdrFail api snap _ _ h
        refine ⟨by rw [heq]; exact List.suffix_append _ _, ?_, ?_⟩
        · rw [heq]
          simp only [List.filter_append, List.append_eq_nil, List.filter_eq_nil_iff]
          refine ⟨⟨by simp [DdEvent.isModesStep], fun e he => by simp [(hp e he).1]⟩,
            by simp [DdEvent.isModesStep]⟩
        · rw [heq]
          simp only [List.filter_append, List.append_eq_nil, List.filter_eq_nil_iff]
          refine ⟨⟨by simp [DdEvent.isPrimaryStep], fun e he => by simp [(hp e he).2]⟩,
            by simp [DdEvent.isPrimaryStep]⟩
      · intro h
        obtain ⟨pre, heq, hp⟩ := restoreStepOne_modesFail api snap _ _ h
        refine ⟨by rw [heq]; exact List.suffix_append _ _, ?_⟩
        rw [heq]
        simp only [List.filter_append, List.append_eq_nil, List.filter_eq_nil_iff]
        refine ⟨⟨by simp [DdEvent.isPrimaryStep], fun e he => by simp [hp e he]⟩,
          by simp [DdEvent.isPrimaryStep]⟩
      · intro h
        obtain ⟨pre, heq, hp⟩ := restoreStepOne_primFail api snap _ _ h
        refine ⟨by rw [heq]; exact List.suffix_append _ _, ?_⟩
        intro t b hm
        rw [heq] at hm
        rcases (by simpa using hm :
            DdEvent.writeTopology t b ∈ pre ∨ DdEvent.writeTopology t b ∈
              ([DdEvent.writePrimary snap.modified.primaryDevice false, DdEvent.blankHdr]
                : List DdEvent)) with h' | h'
        · exact hp t b h'
        · simp at h'
      · intro h
        rcases restoreStepOne_swFail api snap _ _ h with heq | ⟨pre, heq⟩
        · exact ⟨snap.modified.topology, Or.inl rfl, by rw [heq]; exact List.suffix_append _ _⟩
        · exact ⟨snap.initial.topology, Or.inr rfl, by rw [heq]; exact List.suffix_append _ _⟩
      · exact restoreStepOne_okClean api snap _ _ (by simp [DdEvent.isFailedWrite])
      · intro _ _ hvm hvi hclean
        exact restoreStepOne_success api snap _ _ hvm hvi hclean

/-- Witness for C1 at a concrete matching collaborator: all steps succeed and
the result is Ok. -/
theorem restore_c1_witness :
    (restoreFromProfile (mkApi true topoA modesA hdrA "DEV1" true) idDecode (some snapA)).1
      = RevertResult.ok := by
  have h := restore_c1 (mkApi true topoA modesA hdrA "DEV1" true) idDecode (some snapA) snapA
    rfl (restoreFromProfile (mkApi true topoA modesA hdrA "DEV1" true) idDecode (some snapA)).1
    (restoreFromProfile (mkApi true topoA modesA hdrA "DEV1" true) idDecode (some snapA)).2 rfl
  exact h.2.2.2.2.2.2 (by decide) (by decide) (by decide) (by decide) (by decide)

lemma prop_post_comp {P : DdEvent → Bool} {tr k p : List DdEvent}
    (h : ∃ post, p = (tr ++ k) ++ post ∧ ∀ e ∈ post, P e = false)
    (hk : ∀ e ∈ k, P e = false) :
    ∃ post, p = tr ++ post ∧ ∀ e ∈ post, P e = false := by
  obtain ⟨post, heq, hf⟩ := h
  refine ⟨k ++ post, by simpa [List.append_assoc] using heq, ?_⟩
  intro e he
  rcases List.mem_append.1 he with h1 | h2
  exacts [hk e h1, hf e h2]

lemma restoreStepFive_topoFree_of_same (api : WinDisplayDeviceApi)
    (snap : SingleDisplayConfigState)
    (hsame : api.isTopologyTheSame snap.modified.topology snap.initial.topology = true) :
    ∀ touched tr, ∃ post, (restoreStepFive api snap touched tr).2 = tr ++ post
      ∧ ∀ e ∈ post, e.isTopologyWrite = false := by
  intro touched tr
  cases hv : api.isTopologyValid snap.initial.topology with
  | false =>
    refine ⟨if touched then [DdEvent.blankHdr] else [], ?_, ?_⟩
    · simp [restoreStepFive, hv, finishRestore_snd]
    · cases touched <;> simp [DdEvent.isTopologyWrite]
  | true =>
    refine ⟨if touched then [DdEvent.blankHdr] else [], ?_, ?_⟩
    · simp [restoreStepFive, hv, hsame, finishRestore_snd]
    · cases touched <;> simp [DdEvent.isTopologyWrite]

lemma restoreStepFive_topoFree_of_invalid (api : WinDisplayDeviceApi)
    (snap : SingleDisplayConfigState)
    (hv : api.isTopologyValid snap.initial.topology = false) :
    ∀ touched tr, ∃ post, (restoreStepFive api snap touched tr).2 = tr ++ post
      ∧ ∀ e ∈ post, e.isTopologyWrite = false := by
  intro touched tr
  refine ⟨if touched then [DdEvent.blankHdr] else [], ?_, ?_⟩
  · simp [restoreStepFive, hv, finishRestore_snd]
  · cases touched <;> simp [DdEvent.isTopologyWrite]

lemma restoreStepFour_topoFree (api : WinDisplayDeviceApi) (snap : SingleDisplayConfigState)
    (touched : Bool) (tr : List DdEvent)
    (h5 : ∀ touched' tr', ∃ post, (restoreStepFive api snap touched' tr').2 = tr' ++ post
      ∧ ∀ e ∈ post, e.isTopologyWrite = false) :
    ∃ post, (restoreStepFour api snap touched tr).2 = tr ++ post
      ∧ ∀ e ∈ post, e.isTopologyWrite = false := by
  simp only [restoreStepFour]
  split_ifs
  · exact h5 touched tr
  · exact prop_post_comp (h5 touched _) (by simp [DdEvent.isTopologyWrite])
  · exact prop_post_comp (prop_post_comp (h5 true _) (by simp [DdEvent.isTopologyWrite]))
      (by simp [DdEvent.isTopologyWrite])
  · refine ⟨[DdEvent.queryPrimary snap.modified.topology
        (api.getPrimaryDevice tr snap.modified.topology),
      DdEvent.writePrimary snap.modified.primaryDevice false, DdEvent.blankHdr],
      by simp [finishRestore_snd], by simp [DdEvent.isTopologyWrite]⟩

lemma restoreStepThree_topoFree (api : WinDisplayDeviceApi) (snap : SingleDisplayConfigState)
    (touched : Bool) (tr : List DdEvent)
    (h5 : ∀ touched' tr', ∃ post, (restoreStepFive api snap touched' tr').2 = tr' ++ post
      ∧ ∀ e ∈ post, e.isTopologyWrite = false) :
    ∃ post, (restoreStepThree api snap touched tr).2 = tr ++ post
      ∧ ∀ e ∈ post, e.isTopologyWrite = false := by
  simp only [restoreStepThree]
  split_ifs
  · exact restoreStepFour_topoFree api snap touched tr h5
  · exact prop_post_comp (restoreStepFour_topoFree api snap touched _ h5)
      (by simp [DdEvent.isTopologyWrite])
  · exact prop_post_comp (prop_post_comp (prop_post_comp
      (restoreStepFour_topoFree api snap true _ h5)
      (by simp [DdEvent.isTopologyWrite])) (by simp [DdEvent.isTopologyWrite]))
      (by simp [DdEvent.isTopologyWrite])
  · refine ⟨[DdEvent.queryModes (api.flattenTopology snap.modified.topology)
        (api.getCurrentDisplayModes tr (api.flattenTopology snap.modified.topology)),
      DdEvent.strictModeFlag true, DdEvent.writeModes snap.modified.modes false,
      DdEvent.strictModeFlag false, DdEvent.blankHdr],
      by simp [finishRestore_snd], by simp [DdEvent.isTopologyWrite]⟩

lemma restoreStepTwo_topoFree (api : WinDisplayDeviceApi) (snap : SingleDisplayConfigState)
    (touched : Bool) (tr : List DdEvent)
    (h5 : ∀ touched' tr', ∃ post, (restoreStepFive api snap touched' tr').2 = tr' ++ post
      ∧ ∀ e ∈ post, e.isTopologyWrite = false) :
    ∃ post, (restoreStepTwo api snap touched tr).2 = tr ++ post
      ∧ ∀ e ∈ post, e.isTopologyWrite = false := by
  simp only [restoreStepTwo]
  split_ifs
  · exact restoreStepThree_topoFree api snap touched tr h5
  · exact prop_post_comp (restoreStepThree_topoFree api snap touched _ h5)
      (by simp [DdEvent.isTopologyWrite])
  · exact prop_post_comp (prop_post_comp (restoreStepThree_topoFree api snap true _ h5)
      (by simp [DdEvent.isTopologyWrite])) (by simp [DdEvent.isTopologyWrite])
  · refine ⟨[DdEvent.queryHdrStates (api.flattenTopology snap.modified.topology)
        (api.getCurrentHdrStates tr (api.flattenTopology snap.modified.topology)),
      DdEvent.writeHdrStates snap.modified.hdrStates false, DdEvent.blankHdr],
      by simp [finishRestore_snd], by simp [DdEvent.isTopologyWrite]⟩

lemma restoreStepOne_topo (api : WinDisplayDeviceApi) (snap : SingleDisplayConfigState)
    (currentTopology : Topology) (tr : List DdEvent)
    (h5 : ∀ touched' tr', ∃ post, (restoreStepFive api snap touched' tr').2 = tr' ++ post
      ∧ ∀ e ∈ post, e.isTopologyWrite = false) :
    ∃ post, (restoreStepOne api snap currentTopology tr).2 = tr ++ post
      ∧ (∀ t b, DdEvent.writeTopology t b ∈ post → t = snap.modified.topology)
      ∧ (post.filter DdEvent.isTopologyWrite).length ≤ 1 := by
  simp only [restoreStepOne]
  split_ifs
  · refine ⟨[], by simp [finishRestore_false], by simp, by simp⟩
  · obtain ⟨post, heq, hp⟩ := restoreStepTwo_topoFree api snap false tr h5
    refine ⟨post, heq, ?_, ?_⟩
    · intro t b hm
      have := hp _ hm
      simp [DdEvent.isTopologyWrite] at this
    · rw [List.filter_eq_nil_iff.2 (fun e he => by simp [hp e he])]
      simp
  · obtain ⟨post, heq, hp⟩ := restoreStepTwo_topoFree api snap true
      (tr ++ [DdEvent.writeTopology snap.modified.topology true]) h5
    refine ⟨DdEvent.writeTopology snap.modified.topology true :: post,
      by simpa using heq, ?_, ?_⟩
    · intro t b hm
      rcases (by simpa using hm :
          (t = snap.modified.topology ∧ b = true) ∨ DdEvent.writeTopology t b ∈ post)
        with h' | h'
      · exact h'.1
      · have := hp _ h'
        simp [DdEvent.isTopologyWrite] at this
    · simp only [List.filter_cons]
      rw [List.filter_eq_nil_iff.2 (fun e he => by simp [hp e he])]
      simp [DdEvent.isTopologyWrite]
  · refine ⟨[DdEvent.writeTopology snap.modified.topology false, DdEvent.blankHdr],
      by simp [finishRestore_snd], ?_, by simp [DdEvent.isTopologyWrite]⟩
    intro t b hm
    rcases (by simpa using hm :
        (t = snap.modified.topology ∧ b = false) ∨
          DdEvent.writeTopology t b = DdEvent.blankHdr) with h' | h'
    · exact h'.1
    · simp at h'

lemma restoreStepFive_ok_validInit (api : WinDisplayDeviceApi) (snap : SingleDisplayConfigState)
    (touched : Bool) (tr : List DdEvent) :
    (restoreStepFive api snap touched tr).1 = RevertResult.ok →
      api.isTopologyValid snap.initial.topology = true := by
  cases hv : api.isTopologyValid snap.initial.topology with
  | true => exact fun _ => rfl
  | false =>
    intro h
    have hinv : (restoreStepFive api snap touched tr).1 = RevertResult.topologyIsInvalid := by
      simp [restoreStepFive, hv, finishRestore_fst]
    rw [hinv] at h
    exact absurd h (by simp)

lemma restoreStepFour_ok_validInit (api : WinDisplayDeviceApi) (snap : SingleDisplayConfigState)
    (touched : Bool) (tr : List DdEvent) :
    (restoreStepFour api snap touched tr).1 = RevertResult.ok →
      api.isTopologyValid snap.initial.topology = true := by
  simp only [restoreStepFour]
  split_ifs
  · exact restoreStepFive_ok_validInit api snap touched tr
  · exact restoreStepFive_ok_validInit api snap touched _
  · exact restoreStepFive_ok_validInit api snap true _
  · intro h; rw [finishRestore_fst] at h; exact absurd h (by simp)

lemma restoreStepThree_ok_validInit (api : WinDisplayDeviceApi) (snap : SingleDisplayConfigState)
    (touched : Bool) (tr : List DdEvent) :
    (restoreStepThree api snap touched tr).1 = RevertResult.ok →
      api.isTopologyValid snap.initial.topology = true := by
  simp only [restoreStepThree]
  split_ifs
  · exact restoreStepFour_ok_validInit api snap touched tr
  · exact restoreStepFour_ok_validInit api snap touched _
  · exact restoreStepFour_ok_validInit api snap true _
  · intro h; rw [finishRestore_fst] at h; exact absurd h (by simp)

lemma restoreStepTwo_ok_validInit (api : WinDisplayDeviceApi) (snap : SingleDisplayConfigState)
    (touched : Bool) (tr : List DdEvent) :
    (restoreStepTwo api snap touched tr).1 = RevertResult.ok →
      api.isTopologyValid snap.initial.topology = true := by
  simp only [restoreStepTwo]
  split_ifs
  · exact restoreStepThree_ok_validInit api snap touched tr
  · exact restoreStepThree_ok_validInit api snap touched _
  · exact restoreStepThree_ok_validInit api snap true _
  · intro h; rw [finishRestore_fst] at h; exact absurd h (by simp)

lemma restoreStepOne_ok_validInit (api : WinDisplayDeviceApi) (snap : SingleDisplayConfigState)
    (currentTopology : Topology) (tr : List DdEvent) :
    (restoreStepOne api snap currentTopology tr).1 = RevertResult.ok →
      api.isTopologyValid snap.initial.topology = true := by
  simp only [restoreStepOne]
  split_ifs
  · intro h; rw [finishRestore_fst] at h; exact absurd h (by simp)
  · exact restoreStepTwo_ok_validInit api snap false tr
  · exact restoreStepTwo_ok_validInit api snap true _
  · intro h; rw [finishRestore_fst] at h; exact absurd h (by simp)

lemma restoreStepFive_ok_wroteInit (api : WinDisplayDeviceApi) (snap : SingleDisplayConfigState)
    (touched : Bool) (tr : List DdEvent)
    (hdiff : api.isTopologyTheSame snap.modified.topology snap.initial.topology = false) :
    (restoreStepFive api snap touched tr).1 = RevertResult.ok →
      DdEvent.writeTopology snap.initial.topology true
        ∈ (restoreStepFive api snap touched tr).2 := by
  simp only [restoreStepFive]
  split_ifs with h1 h2 h3
  · intro h; rw [finishRestore_fst] at h; exact absurd h (by simp)
  · rw [hdiff] at h2; exact absurd h2 (by simp)
  · intro _
    rw [finishRestore_true]
    simp
  · intro h; rw [finishRestore_fst] at h; exact absurd h (by simp)

lemma restoreStepFour_ok_wroteInit (api : WinDisplayDeviceApi) (snap : SingleDisplayConfigState)
    (touched : Bool) (tr : List DdEvent)
    (hdiff : api.isTopologyTheSame snap.modified.topology snap.initial.topology = false) :
    (restoreStepFour api snap touched tr).1 = RevertResult.ok →
      DdEvent.writeTopology snap.initial.topology true
        ∈ (restoreStepFour api snap touched tr).2 := by
  simp only [restoreStepFour]
  split_ifs
  · exact restoreStepFive_ok_wroteInit api snap touched tr hdiff
  · exact restoreStepFive_ok_wroteInit api snap touched _ hdiff
  · exact restoreStepFive_ok_wroteInit api snap true _ hdiff
  · intro h; rw [finishRestore_fst] at h; exact absurd h (by simp)

lemma restoreStepThree_ok_wroteInit (api : WinDisplayDeviceApi) (snap : SingleDisplayConfigState)
    (touched : Bool) (tr : List DdEvent)
    (hdiff : api.isTopologyTheSame snap.modified.topology snap.initial.topology = false) :
    (restoreStepThree api snap touched tr).1 = RevertResult.ok →
      DdEvent.writeTopology snap.initial.topology true
        ∈ (restoreStepThree api snap touched tr).2 := by
  simp only [restoreStepThree]
  split_ifs
  · exact restoreStepFour_ok_wroteInit api snap touched tr hdiff
  · exact restoreStepFour_ok_wroteInit api snap touched _ hdiff
  · exact restoreStepFour_ok_wroteInit api snap true _ hdiff
  · intro h; rw [finishRestore_fst] at h; exact absurd h (by simp)

lemma restoreStepTwo_ok_wroteInit (api : WinDisplayDeviceApi) (snap : SingleDisplayConfigState)
    (touched : Bool) (tr : List DdEvent)
    (hdiff : api.isTopologyTheSame snap.modified.topology snap.initial.topology = false) :
    (restoreStepTwo api snap touched tr).1 = RevertResult.ok →
      DdEvent.writeTopology snap.initial.topology true
        ∈ (restoreStepTwo api snap touched tr).2 := by
  simp only [restoreStepTwo]
  split_ifs
  · exact restoreStepThree_ok_wroteInit api snap touched tr hdiff
  · exact restoreStepThree_ok_wroteInit api snap touched _ hdiff
  · exact restoreStepThree_ok_wroteInit api snap true _ hdiff
  · intro h; rw [finishRestore_fst] at h; exact absurd h (by simp)

lemma restoreStepOne_ok_wroteInit (api : WinDisplayDeviceApi) (snap : SingleDisplayConfigState)
    (currentTopology : Topology) (tr : List DdEvent)
    (hdiff : api.isTopologyTheSame snap.modified.topology snap.initial.topology = false) :
    (restoreStepOne api snap currentTopology tr).1 = RevertResult.ok →
      DdEvent.writeTopology snap.initial.topology true
        ∈ (restoreStepOne api snap currentTopology tr).2 := by
  simp only [restoreStepOne]
  split_ifs
  · intro h; rw [finishRestore_fst] at h; exact absurd h (by simp)
  · exact restoreStepTwo_ok_wroteInit api snap false tr hdiff
  · exact restoreStepTwo_ok_wroteInit api snap true _ hdiff
  · intro h; rw [finishRestore_fst] at h; exact absurd h (by simp)

lemma restoreStepFive_invalidInit (api : WinDisplayDeviceApi) (snap : SingleDisplayConfigState)
    (touched : Bool) (tr : List DdEvent)
    (hv : api.isTopologyValid snap.initial.topology = false) :
    (restoreStepFive api snap touched tr).1 = RevertResult.topologyIsInvalid := by
  simp [restoreStepFive, hv, finishRestore_fst]

lemma restoreStepFour_invalidInit (api : WinDisplayDeviceApi) (snap : SingleDisplayConfigState)
    (touched : Bool) (tr : List DdEvent)
    (hv : api.isTopologyValid snap.initial.topology = false)
    (hclean : ∀ e ∈ (restoreStepFour api snap touched tr).2, e.isFailedWrite = false) :
    (restoreStepFour api snap touched tr).1 = RevertResult.topologyIsInvalid := by
  simp only [restoreStepFour] at hclean ⊢
  split_ifs at hclean ⊢
  · exact restoreStepFive_invalidInit api snap touched tr hv
  · exact restoreStepFive_invalidInit api snap touched _ hv
  · exact restoreStepFive_invalidInit api snap true _ hv
  · rw [finishRestore_true] at hclean
    have := hclean (DdEvent.writePrimary snap.modified.primaryDevice false) (by simp)
    simp [DdEvent.isFailedWrite] at this

lemma restoreStepThree_invalidInit (api : WinDisplayDeviceApi) (snap : SingleDisplayConfigState)
    (touched : Bool) (tr : List DdEvent)
    (hv : api.isTopologyValid snap.initial.topology = false)
    (hclean : ∀ e ∈ (restoreStepThree api snap touched tr).2, e.isFailedWrite = false) :
    (restoreStepThree api snap touched tr).1 = RevertResult.topologyIsInvalid := by
  simp only [restoreStepThree] at hclean ⊢
  split_ifs at hclean ⊢
  · exact restoreStepFour_invalidInit api snap touched tr hv hclean
  · exact restoreStepFour_invalidInit api snap touched _ hv hclean
  · exact restoreStepFour_invalidInit api snap true _ hv hclean
  · rw [finishRestore_true] at hclean
    have := hclean (DdEvent.writeModes snap.modified.modes false) (by simp)
    simp [DdEvent.isFailedWrite] at this

lemma restoreStepTwo_invalidInit (api : WinDisplayDeviceApi) (snap : SingleDisplayConfigState)
    (touched : Bool) (tr : List DdEvent)
    (hv : api.isTopologyValid snap.initial.topology = false)
    (hclean : ∀ e ∈ (restoreStepTwo api snap touched tr).2, e.isFailedWrite = false) :
    (restoreStepTwo api snap touched tr).1 = RevertResult.topologyIsInvalid := by
  simp only [restoreStepTwo] at hclean ⊢
  split_ifs at hclean ⊢
  · exact restoreStepThree_invalidInit api snap touched tr hv hclean
  · exact restoreStepThree_invalidInit api snap touched _ hv hclean
  · exact restoreStepThree_invalidInit api snap true _ hv hclean
  · rw [finishRestore_true] at hclean
    have := hclean (DdEvent.writeHdrStates snap.modified.hdrStates false) (by simp)
    simp [DdEvent.isFailedWrite] at this

lemma restoreStepOne_invalidInit (api : WinDisplayDeviceApi) (snap : SingleDisplayConfigState)
    (currentTopology : Topology) (tr : List DdEvent)
    (hv : api.isTopologyValid snap.initial.topology = false)
    (hclean : ∀ e ∈ (restoreStepOne api snap currentTopology tr).2, e.isFailedWrite = false) :
    (restoreStepOne api snap currentTopology tr).1 = RevertResult.topologyIsInvalid := by
  simp only [restoreStepOne] at hclean ⊢
  split_ifs at hclean ⊢
  · rw [finishRestore_fst]
  · exact restoreStepTwo_invalidInit api snap false tr hv hclean
  · exact restoreStepTwo_invalidInit api snap true _ hv hclean
  · rw [finishRestore_true] at hclean
    have := hclean (DdEvent.writeTopology snap.modified.topology false) (by simp)
    simp [DdEvent.isFailedWrite] at this

/-- Claim C5: step 5 of `restoreFromProfile` compares `initial.topology`
against `modified.topology` through the collaborator predicate — never against
the live topology.  When the predicate says they are the same, the whole run
performs at most one topology write and every topology write targets
`modified.topology` (so step 5 writes nothing and marks nothing touched, no
matter what is live); an Ok result implies `initial.topology` passed the
validity check; when `initial.topology` is invalid, step 5 never writes, the
run cannot return Ok, step 5 itself exits with exactly TopologyIsInvalid (and
the cleanup exactly when an earlier step touched the system), and a run in
which no device write failed returns TopologyIsInvalid; when the two
topologies differ and the run returns
Ok, the `initial.topology` write was attempted and succeeded; and at step 5
itself, with a valid `initial.topology` that differs from
`modified.topology`, a failing topology write yields exactly
SwitchingTopologyFailed followed by the cleanup, while an equal comparison
ends the step with Ok and no device call at all. -/
theorem restore_c5 {β : Type} (api : WinDisplayDeviceApi)
    (decodeConfig : β → Option SingleDisplayConfigState) (data : β)
    (snap : SingleDisplayConfigState) (hdec : decodeConfig data = some snap) :
    ∀ r evs, restoreFromProfile api decodeConfig data = (r, evs) →
    (api.isTopologyTheSame snap.modified.topology snap.initial.topology = true →
       (∀ t b, DdEvent.writeTopology t b ∈ evs → t = snap.modified.topology)
       ∧ (evs.filter DdEvent.isTopologyWrite).length ≤ 1)
    ∧ (api.isTopologyValid snap.initial.topology = false →
       (∀ t b, DdEvent.writeTopology t b ∈ evs → t = snap.modified.topology)
       ∧ r ≠ RevertResult.ok)
    ∧ (r = RevertResult.ok → api.isTopologyValid snap.initial.topology = true)
    ∧ (api.isTopologyTheSame snap.modified.topology snap.initial.topology = false →
       r = RevertResult.ok → DdEvent.writeTopology snap.initial.topology true ∈ evs)
    ∧ (∀ touched tr, api.isTopologyValid snap.initial.topology = true →
       api.isTopologyTheSame snap.modified.topology snap.initial.topology = false →
       api.setTopologySucceeds tr snap.initial.topology = false →
       restoreStepFive api snap touched tr
         = (RevertResult.switchingTopologyFailed,
            tr ++ [DdEvent.writeTopology snap.initial.topology false, DdEvent.blankHdr]))
    ∧ (∀ touched tr, api.isTopologyValid snap.initial.topology = true →
       api.isTopologyTheSame snap.modified.topology snap.initial.topology = true →
       restoreStepFive api snap touched tr = finishRestore touched RevertResult.ok tr)
    ∧ (∀ touched tr, api.isTopologyValid snap.initial.topology = false →
       restoreStepFive api snap touched tr
         = finishRestore touched RevertResult.topologyIsInvalid tr)
    ∧ (api.isTopologyValid snap.initial.topology = false →
       api.isApiAccessAvailable [] = true →
       api.isTopologyValid (api.getCurrentTopology [DdEvent.queryApiAccess true]) = true →
       (∀ e ∈ evs, e.isFailedWrite = false) →
       r = RevertResult.topologyIsInvalid) := by
  intro r evs hrun
  have hc5 : ∀ (touched : Bool) (tr : List DdEvent),
      api.isTopologyValid snap.initial.topology = true →
      api.isTopologyTheSame snap.modified.topology snap.initial.topology = false →
      api.setTopologySucceeds tr snap.initial.topology = false →
      restoreStepFive api snap touched tr
        = (RevertResult.switchingTopologyFailed,
           tr ++ [DdEvent.writeTopology snap.initial.topology false, DdEvent.blankHdr]) := by
    intro touched tr hv hs hw
    simp [restoreStepFive, hv, hs, hw, finishRestore_true]
  have hc6 : ∀ (touched : Bool) (tr : List DdEvent),
      api.isTopologyValid snap.initial.topology = true →
      api.isTopologyTheSame snap.modified.topology snap.initial.topology = true →
      restoreStepFive api snap touched tr = finishRestore touched RevertResult.ok tr := by
    intro touched tr hv hs
    simp [restoreStepFive, hv, hs]
  have hc7 : ∀ (touched : Bool) (tr : List DdEvent),
      api.isTopologyValid snap.initial.topology = false →
      restoreStepFive api snap touched tr
        = finishRestore touched RevertResult.topologyIsInvalid tr := by
    intro touched tr hv
    simp [restoreStepFive, hv]
  cases hA : api.isApiAccessAvailable [] with
  | false =>
    simp only [restoreFromProfile, hA, Bool.not_false, if_true] at hrun
    obtain ⟨rfl, rfl⟩ := Prod.mk.injEq .. ▸ hrun
    exact ⟨fun _ => ⟨by simp, by simp [DdEvent.isTopologyWrite]⟩,
      fun _ => ⟨by simp, by simp⟩, by simp, by simp, hc5, hc6, hc7,
      fun _ hacc _ _ => by simp [hA] at hacc⟩
  | true =>
    cases hV : api.isTopologyValid (api.getCurrentTopology [DdEvent.queryApiAccess true]) with
    | false =>
      rw [show restoreFromProfile api decodeConfig data
          = (RevertResult.topologyIsInvalid,
             [DdEvent.queryApiAccess true,
              DdEvent.queryTopology (api.getCurrentTopology [DdEvent.queryApiAccess true])])
        from by simp [restoreFromProfile, hA, hV]] at hrun
      obtain ⟨rfl, rfl⟩ := Prod.mk.injEq .. ▸ hrun
      exact ⟨fun _ => ⟨by simp, by simp [DdEvent.isTopologyWrite]⟩,
        fun _ => ⟨by simp, by simp⟩, by simp, by simp, hc5, hc6, hc7,
        fun _ _ _ _ => rfl⟩
    | true =>
      rw [show restoreFromProfile api decodeConfig data
          = restoreStepOne api snap
              (api.getCurrentTopology [DdEvent.queryApiAccess true])
              [DdEvent.queryApiAccess true,
               DdEvent.queryTopology (api.getCurrentTopology [DdEvent.queryApiAccess true])]
        from by simp [restoreFromProfile, hA, hV, hdec]] at hrun
      have h1 : (restoreStepOne api snap
          (api.getCurrentTopology [DdEvent.queryApiAccess true])
          [DdEvent.queryApiAccess true,
           DdEvent.queryTopology (api.getCurrentTopology [DdEvent.queryApiAccess true])]).1
          = r := by rw [hrun]
      have h2 : (restoreStepOne api snap
          (api.getCurrentTopology [DdEvent.queryApiAccess true])
          [DdEvent.queryApiAccess true,
           DdEvent.queryTopology (api.getCurrentTopology [DdEvent.queryApiAccess true])]).2
          = evs := by rw [hrun]
      subst h1
      subst h2
      refine ⟨?_, ?_, ?_, ?_, hc5, hc6, hc7, ?_⟩
      · intro hsame
        obtain ⟨post, heq, hmem, hlen⟩ := restoreStepOne_topo api snap _ _
          (restoreStepFive_topoFree_of_same api snap hsame)
        rw [heq]
        refine ⟨?_, ?_⟩
        · intro t b hm
          have h' : DdEvent.writeTopology t b ∈ post := by simpa using hm
          exact hmem t b h'
        · simpa [List.filter_append, DdEvent.isTopologyWrite] using hlen
      · intro hv
        obtain ⟨post, heq, hmem, hlen⟩ := restoreStepOne_topo api snap _ _
          (restoreStepFive_topoFree_of_invalid api snap hv)
        refine ⟨?_, ?_⟩
        · intro t b hm
          rw [heq] at hm
          have h' : DdEvent.writeTopology t b ∈ post := by simpa using hm
          exact hmem t b h'
        · intro hok
          have hvt := restoreStepOne_ok_validInit api snap _ _ hok
          rw [hvt] at hv
          exact absurd hv (by simp)
      · exact restoreStepOne_ok_validInit api snap _ _
      · intro hdiff hok
        exact restoreStepOne_ok_wroteInit api snap _ _ hdiff hok
      · intro hv _ _ hclean
        exact restoreStepOne_invalidInit api snap _ _ hv hclean

/-- Witness for C5 at concrete collaborators: with equal profile topologies
the run issues at most one topology write, all targeting the modified
topology; with an invalid initial topology and no failing write the run
returns TopologyIsInvalid. -/
theorem restore_c5_witness :
    ((∀ t b, DdEvent.writeTopology t b
        ∈ (restoreFromProfile (mkApi true topoA modesA hdrA "DEV1" true) idDecode
            (some snapA)).2
      → t = snapA.modified.topology)
    ∧ ((restoreFromProfile (mkApi true topoA modesA hdrA "DEV1" true) idDecode
        (some snapA)).2.filter DdEvent.isTopologyWrite).length ≤ 1)
    ∧ (restoreFromProfile (mkApi true topoA modesA hdrA "DEV1" true) idDecode
        (some snapBadInit)).1 = RevertResult.topologyIsInvalid := by
  have h := restore_c5 (mkApi true topoA modesA hdrA "DEV1" true) idDecode (some snapA) snapA
    rfl (restoreFromProfile (mkApi true topoA modesA hdrA "DEV1" true) idDecode (some snapA)).1
    (restoreFromProfile (mkApi true topoA modesA hdrA "DEV1" true) idDecode (some snapA)).2 rfl
  have h2 := restore_c5 (mkApi true topoA modesA hdrA "DEV1" true) idDecode (some snapBadInit)
    snapBadInit rfl
    (restoreFromProfile (mkApi true topoA modesA hdrA "DEV1" true) idDecode
      (some snapBadInit)).1
    (restoreFromProfile (mkApi true topoA modesA hdrA "DEV1" true) idDecode
      (some snapBadInit)).2 rfl
  exact ⟨h.1 (by decide),
    h2.2.2.2.2.2.2.2 (by decide) (by decide) (by decide) (by decide)⟩

lemma collectPrimaryDevices_trace (api : WinDisplayDeviceApi) (ids : List DeviceId)
    (tr : List DdEvent) :
    ∃ new, (collectPrimaryDevices api ids tr).2 = tr ++ new := by
  induction ids generalizing tr with
  | nil => exact ⟨[], by simp [collectPrimaryDevices]⟩
  | cons a rest ih =>
    simp only [collectPrimaryDevices]
    obtain ⟨new, hnew⟩ := ih (tr ++ [DdEvent.queryIsPrimary a (api.isPrimaryDevice tr a)])
    exact ⟨DdEvent.queryIsPrimary a (api.isPrimaryDevice tr a) :: new, by simpa using hnew⟩

lemma collectPrimaryDevices_mem (api : WinDisplayDeviceApi)
    (hstable : ∀ tr tr' i, api.isPrimaryDevice tr i = api.isPrimaryDevice tr' i)
    (ids : List DeviceId) (tr : List DdEvent) (i : DeviceId) :
    i ∈ (collectPrimaryDevices api ids tr).1
      ↔ (i ∈ ids ∧ api.isPrimaryDevice [] i = true) := by
  induction ids generalizing tr with
  | nil => simp [collectPrimaryDevices]
  | cons a rest ih =>
    have hres := hstable tr [] a
    simp only [collectPrimaryDevices]
    cases hpa : api.isPrimaryDevice [] a with
    | true =>
      by_cases hi : i = a
      · subst hi; simp [hres, hpa, ih]
      · simp [hres, hpa, ih, hi]
    | false =>
      by_cases hi : i = a
      · subst hi; simp [hres, hpa, ih]
      · simp [hres, hpa, ih, hi]

lemma collectPrimaryDevices_mem_trace (api : WinDisplayDeviceApi) (ids : List DeviceId)
    (tr : List DdEvent) (e : DdEvent) (he : e ∈ tr) :
    e ∈ (collectPrimaryDevices api ids tr).2 := by
  obtain ⟨new, hnew⟩ := collectPrimaryDevices_trace api ids tr
  rw [hnew]
  exact List.mem_append_left _ he

/-- Claim C8: every buffer returned by a successful `exportRestoreProfile`
decodes (through any codec that inverts the encoder) back to a
`SingleDisplayConfigState` whose `initial.topology` and `modified.topology`
are both the single topology read during the call, whose `modified` fields
are exactly the modes, HDR states and primary device read during the call
(each read is in the trace with that result), and whose
`initial.primaryDevices` holds exactly the flattened device ids the
collaborator reports as primary-capable. -/
theorem export_c8 {β : Type} (api : WinDisplayDeviceApi)
    (encodeConfig : SingleDisplayConfigState → β)
    (decodeConfig : β → Option SingleDisplayConfigState)
    (hcodec : ∀ s, decodeConfig (encodeConfig s) = some s)
    (hstable : ∀ tr tr' i, api.isPrimaryDevice tr i = api.isPrimaryDevice tr' i) :
    ∀ buf evs, exportRestoreProfile api encodeConfig = (some buf, evs) →
    ∃ snap, decodeConfig buf = some snap
      ∧ snap.initial.topology = snap.modified.topology
      ∧ DdEvent.queryTopology snap.modified.topology ∈ evs
      ∧ DdEvent.queryModes (api.flattenTopology snap.modified.topology)
          snap.modified.modes ∈ evs
      ∧ DdEvent.queryHdrStates (api.flattenTopology snap.modified.topology)
          snap.modified.hdrStates ∈ evs
      ∧ DdEvent.queryPrimary snap.modified.topology snap.modified.primaryDevice ∈ evs
      ∧ (∀ i, i ∈ snap.initial.primaryDevices ↔
          (i ∈ api.flattenTopology snap.modified.topology
            ∧ api.isPrimaryDevice [] i = true)) := by
  intro buf evs hrun
  cases hA : api.isApiAccessAvailable [] with
  | false => simp [exportRestoreProfile, hA] at hrun
  | true =>
    cases hV : api.isTopologyValid (api.getCurrentTopology [DdEvent.queryApiAccess true]) with
    | false => simp [exportRestoreProfile, hA, hV] at hrun
    | true =>
      by_cases hM : api.getCurrentDisplayModes
          [DdEvent.queryApiAccess true,
            DdEvent.queryTopology (api.getCurrentTopology [DdEvent.queryApiAccess true])]
          (api.flattenTopology (api.getCurrentTopology [DdEvent.queryApiAccess true])) = []
      · simp [exportRestoreProfile, hA, hV, hM] at hrun
      · by_cases hH : api.getCurrentHdrStates
            [DdEvent.queryApiAccess true,
              DdEvent.queryTopology (api.getCurrentTopology [DdEvent.queryApiAccess true]),
              DdEvent.queryModes
                (api.flattenTopology (api.getCurrentTopology [DdEvent.queryApiAccess true]))
                (api.getCurrentDisplayModes
                  [DdEvent.queryApiAccess true,
                    DdEvent.queryTopology
                      (api.getCurrentTopology [DdEvent.queryApiAccess true])]
                  (api.flattenTopology
                    (api.getCurrentTopology [DdEvent.queryApiAccess true])))]
            (api.flattenTopology (api.getCurrentTopology [DdEvent.queryApiAccess true])) = []
        · simp [exportRestoreProfile, hA, hV, hM, hH] at hrun
        · simp [exportRestoreProfile, hA, hV, hM, hH, Prod.mk.injEq,
            Option.some.injEq] at hrun
          obtain ⟨hbuf, hevs⟩ := hrun
          refine ⟨_, by rw [← hbuf]; exact hcodec _, rfl, ?_, ?_, ?_, ?_, ?_⟩
          · rw [← hevs]
            exact List.mem_append_left _
              (collectPrimaryDevices_mem_trace _ _ _ _ (by simp))
          · rw [← hevs]
            exact List.mem_append_left _
              (collectPrimaryDevices_mem_trace _ _ _ _ (by simp))
          · rw [← hevs]
            exact List.mem_append_left _
              (collectPrimaryDevices_mem_trace _ _ _ _ (by simp))
          · rw [← hevs]
            simp
          · intro i
            exact collectPrimaryDevices_mem api hstable _ _ i

/-- Witness for C8 with the identity codec over decoded buffers and a
concrete collaborator. -/
theorem export_c8_witness :
    ∃ snap, (fun s => some s)
        ((exportRestoreProfile (mkApi true topoA modesA hdrA "DEV1" true)
          (fun s => s)).1.getD snapA) = some snap
      ∧ snap.initial.topology = snap.modified.topology
      ∧ (∀ i, i ∈ snap.initial.primaryDevices ↔
          (i ∈ (mkApi true topoA modesA hdrA "DEV1" true).flattenTopology
              snap.modified.topology
            ∧ (mkApi true topoA modesA hdrA "DEV1" true).isPrimaryDevice [] i = true)) := by
  obtain ⟨snap, h1, h2, _, _, _, _, h7⟩ :=
    export_c8 (mkApi true topoA modesA hdrA "DEV1" true) (fun s => s) (fun s => some s)
      (fun _ => rfl) (fun _ _ _ => rfl)
      ((exportRestoreProfile (mkApi true topoA modesA hdrA "DEV1" true) (fun s => s)).1.getD
        snapA)
      (exportRestoreProfile (mkApi true topoA modesA hdrA "DEV1" true) (fun s => s)).2
      (by decide)
  exact ⟨snap, h1, h2, h7⟩

/-- Counterexample to claim C10's final clause ("only the TopologyIsInvalid
returned for the live or modified topology before any write is
mutation-free"): a run in which the API is accessible, the live and the
modified topologies both pass the validity check — so the TopologyIsInvalid
comes from step 5's `initial.topology` check — and yet the call performs no
device write and no HDR-blank cleanup. -/
theorem restore_c10_counterexample :
    (restoreFromProfile (mkApi true topoA modesA hdrA "DEV1" true) idDecode
        (some snapBadInit)).1 = RevertResult.topologyIsInvalid
    ∧ (∀ e ∈ (restoreFromProfile (mkApi true topoA modesA hdrA "DEV1" true) idDecode
        (some snapBadInit)).2, e.isWrite = false)
    ∧ DdEvent.blankHdr ∉ (restoreFromProfile (mkApi true topoA modesA hdrA "DEV1" true)
        idDecode (some snapBadInit)).2
    ∧ idDecode (some snapBadInit) = some snapBadInit
    ∧ (mkApi true topoA modesA hdrA "DEV1" true).isApiAccessAvailable [] = true
    ∧ (mkApi true topoA modesA hdrA "DEV1" true).isTopologyValid
        ((mkApi true topoA modesA hdrA "DEV1" true).getCurrentTopology
          [DdEvent.queryApiAccess true]) = true
    ∧ (mkApi true topoA modesA hdrA "DEV1" true).isTopologyValid
        snapBadInit.modified.topology = true
    ∧ (mkApi true topoA modesA hdrA "DEV1" true).isTopologyValid
        snapBadInit.initial.topology = false := by
  decide

/-- Claim C10 (amended): a TopologyIsInvalid result from `restoreFromProfile`
does not imply the system was left unmodified — the validity of
`initial.topology` is checked only at step 5, after steps 1–4 have run, so a
decoded profile with a valid modified topology differing from the live one
and an invalid initial topology applies the modified topology and then
returns TopologyIsInvalid with the HDR-blank cleanup fired; the
TopologyIsInvalid returned for the live or the modified topology before any
write is always mutation-free (while a step-5 TopologyIsInvalid is
mutation-free exactly when no earlier step had to write). -/
theorem restore_c10 {β : Type} (api : WinDisplayDeviceApi)
    (decodeConfig : β → Option SingleDisplayConfigState) (data : β) :
    ((restoreFromProfile (mkApi true topoB modesA hdrA "DEV1" true) idDecode
        (some snapBadInit)).1 = RevertResult.topologyIsInvalid
      ∧ DdEvent.writeTopology topoA true
          ∈ (restoreFromProfile (mkApi true topoB modesA hdrA "DEV1" true) idDecode
            (some snapBadInit)).2
      ∧ DdEvent.blankHdr ∈ (restoreFromProfile (mkApi true topoB modesA hdrA "DEV1" true)
          idDecode (some snapBadInit)).2
      ∧ (mkApi true topoB modesA hdrA "DEV1" true).isTopologyValid
          snapBadInit.modified.topology = true
      ∧ (mkApi true topoB modesA hdrA "DEV1" true).isTopologyValid
          snapBadInit.initial.topology = false)
    ∧ (api.isApiAccessAvailable [] = true →
       api.isTopologyValid (api.getCurrentTopology [DdEvent.queryApiAccess true]) = false →
       restoreFromProfile api decodeConfig data
         = (RevertResult.topologyIsInvalid,
            [DdEvent.queryApiAccess true,
             DdEvent.queryTopology (api.getCurrentTopology [DdEvent.queryApiAccess true])]))
    ∧ (∀ snap, decodeConfig data = some snap →
       api.isApiAccessAvailable [] = true →
       api.isTopologyValid (api.getCurrentTopology [DdEvent.queryApiAccess true]) = true →
       api.isTopologyValid snap.modified.topology = false →
       restoreFromProfile api decodeConfig data
         = (RevertResult.topologyIsInvalid,
            [DdEvent.queryApiAccess true,
             DdEvent.queryTopology (api.getCurrentTopology [DdEvent.queryApiAccess true])])) := by
  refine ⟨by decide, ?_, ?_⟩
  · intro hacc hlv
    simp [restoreFromProfile, hacc, hlv]
  · intro snap hdec hacc hlv hvm
    simp [restoreFromProfile, hacc, hlv, hdec, restoreStepOne, hvm, finishRestore]

/-- Witness for C10's general part: a profile whose modified topology is
invalid is rejected before any write. -/
theorem restore_c10_witness :
    restoreFromProfile (mkApi true topoA modesA hdrA "DEV1" true) idDecode
        (some snapBadModified)
      = (RevertResult.topologyIsInvalid,
         [DdEvent.queryApiAccess true, DdEvent.queryTopology topoA]) := by
  have h := (restore_c10 (mkApi true topoA modesA hdrA "DEV1" true) idDecode
    (some snapBadModified)).2.2 snapBadModified rfl (by decide) (by decide) (by decide)
  exact h

end DisplayDevice
